import Mathlib

/-!
Ember firmware: `PrinterStatus`.

A shallow embedding of `src/C++/PrinterStatus.cpp` (state-name registry,
status key, last-error channel and the JSON status renderer) together with
the properties of it that the specification states.

Conventions of the embedding.

* Enumeration values (`PrintEngineState`, `UISubState`, `ErrorCode`, the
  change tag, the print rating) are C++ unscoped enumerations; a variable of
  such a type can hold any integer of the underlying type, so they are
  modelled as `Int`.
* `const char*` is `Option String`: `none` is the null pointer, `some s` a
  pointer to the NUL-terminated text `s`.
* Function-local statics, the file-level `_lastErrorMessage` and the error
  log of the `Logger` collaborator live in an explicit `World` that every
  operation threads through.
* A call of a collaborator (settings store, status translator) returns a
  text or raises a `std::exception`; machine integers are 32-bit `int`s.
* The declarations that `PrinterStatus.cpp` takes from headers that are not
  part of the sources at hand and that the specification does not fix
  (enumerator ordinals, state-name texts) are a parameter `Decls` of every
  definition that uses them.
-/

namespace Ember

/-! ## Declarations taken from absent headers -/

/-- Enumerators of `PrintEngineState` (declared in `PrinterStatus.h`), each
with its ordinal. The fields are the enumerators that `PrinterStatus.cpp`
names. -/
structure PrintEngineStateEnum where
  UndefinedPrintEngineState : Int
  PrinterOnState : Int
  DoorClosedState : Int
  InitializingState : Int
  DoorOpenState : Int
  HomingState : Int
  HomeState : Int
  ErrorState : Int
  MovingToStartPositionState : Int
  InitializingLayerState : Int
  PressingState : Int
  PressDelayState : Int
  UnpressingState : Int
  PreExposureDelayState : Int
  ExposingState : Int
  PrintingLayerState : Int
  MovingToPauseState : Int
  PausedState : Int
  MovingToResumeState : Int
  SeparatingState : Int
  ApproachingState : Int
  GettingFeedbackState : Int
  ConfirmCancelState : Int
  AwaitingCancelationState : Int
  ShowingVersionState : Int
  CalibratingState : Int
  RegisteringState : Int
  UnjammingState : Int
  JammedState : Int
  DemoModeState : Int
  ConfirmUpgradeState : Int
  UpgradingProjectorState : Int
  UpgradeCompleteState : Int
  MaxPrintEngineState : Int

/-- Enumerators of `UISubState` (declared in `PrinterStatus.h`), each with
its ordinal. -/
structure UISubStateEnum where
  NoUISubState : Int
  NoPrintData : Int
  DownloadingPrintData : Int
  PrintDownloadFailed : Int
  LoadingPrintData : Int
  LoadedPrintData : Int
  PrintDataLoadFailed : Int
  HavePrintData : Int
  PrintCanceled : Int
  PrintCompleted : Int
  ClearingScreen : Int
  Registered : Int
  AboutToPause : Int
  WiFiConnecting : Int
  WiFiConnectionFailed : Int
  WiFiConnected : Int
  CalibratePrompt : Int
  USBDriveFileFound : Int
  USBDriveError : Int
  MaxUISubState : Int

/-- Texts of the state-name constants that `GetStateName` stores in its
table. -/
structure StateNameText where
  PRINTER_ON_STATE : String
  DOOR_CLOSED_STATE : String
  INITIALIZING_STATE : String
  DOOR_OPEN_STATE : String
  HOMING_STATE : String
  HOME_STATE : String
  ERROR_STATE : String
  MOVING_TO_START_POSITION_STATE : String
  INITIALIZING_LAYER_STATE : String
  PRESSING_STATE : String
  PRESS_DELAY_STATE : String
  UNPRESSING_STATE : String
  PRE_EXPOSURE_DELAY_STATE : String
  EXPOSING_STATE : String
  PRINTING_LAYER_STATE : String
  MOVING_TO_PAUSE_STATE : String
  PAUSED_STATE : String
  MOVING_TO_RESUME_STATE : String
  SEPARATING_STATE : String
  APPROACHING_STATE : String
  GETING_FEEDBACK_STATE : String
  CONFIRM_CANCEL_STATE : String
  AWAITING_CANCELATION_STATE : String
  SHOWING_VERSION_STATE : String
  CALIBRATING_STATE : String
  REGISTERING_STATE : String
  UNJAMMING_STATE : String
  JAMMED_STATE : String
  DEMO_MODE_STATE : String
  CONFIRM_UPGRADE_STATE : String
  UPGRADING_PROJECTOR_STATE : String
  UPGRADE_COMPLETE_STATE : String

/-- Texts of the substate-name constants that `GetSubStateName` stores in
its table. -/
structure SubStateNameText where
  NO_SUBSTATE : String
  NO_PRINT_DATA_SUBSTATE : String
  DOWNLOADING_PRINT_DATA_SUBSTATE : String
  PRINT_DOWNLOAD_FAILED_SUBSTATE : String
  LOADING_PRINT_DATA_SUBSTATE : String
  LOADED_PRINT_DATA_SUBSTATE : String
  PRINT_DATA_LOAD_FAILED_SUBSTATE : String
  HAVE_PRINT_DATA_SUBSTATE : String
  PRINT_CANCELED_SUBSTATE : String
  PRINT_COMPLETED_SUBSTATE : String
  CLEARING_SCREEN_SUBSTATE : String
  REGISTERED_SUBSTATE : String
  ABOUT_TO_PAUSE_SUBSTATE : String
  WIFI_CONNECTING_SUBSTATE : String
  WIFI_CONNECTION_FAILED_SUBSTATE : String
  WIFI_CONNECTED_SUBSTATE : String
  CALIBRATE_PROMPT_SUBSTATE : String
  USB_FILE_FOUND_SUBSTATE : String
  USB_DRIVE_ERROR_SUBSTATE : String

/-- The remaining enumerators and constants that `PrinterStatus.cpp` names:
the `ErrorCode` values it uses, the change tags, the print ratings and the
settings key of the job name. -/
structure OtherDecls where
  Success : Int
  UnknownPrintEngineState : Int
  UnknownPrintEngineSubState : Int
  PrinterStatusToString : Int
  NoChange : Int
  Entering : Int
  Leaving : Int
  Unknown : Int
  Succeeded : Int
  Failed : Int
  JOB_NAME_SETTING : String

/-- Everything `PrinterStatus.cpp` takes from the headers `PrinterStatus.h`,
`Shared.h`, `Settings.h` and `ErrorCode.h` without the specification giving
its value. -/
structure Decls extends PrintEngineStateEnum, UISubStateEnum, StateNameText,
    SubStateNameText, OtherDecls

/-! ### Constants whose text the specification gives -/

/-- Modelled from the spec: `STATE_PS_KEY` of `Shared.h` (absent); the key
spelt in the status-document table of section 6. -/
def STATE_PS_KEY : String := "State"

/-- Modelled from the spec: `UISUBSTATE_PS_KEY` of `Shared.h` (absent). -/
def UISUBSTATE_PS_KEY : String := "UISubState"

/-- Modelled from the spec: `CHANGE_PS_KEY` of `Shared.h` (absent). -/
def CHANGE_PS_KEY : String := "Change"

/-- Modelled from the spec: `IS_ERROR_PS_KEY` of `Shared.h` (absent). -/
def IS_ERROR_PS_KEY : String := "IsError"

/-- Modelled from the spec: `ERROR_CODE_PS_KEY` of `Shared.h` (absent). -/
def ERROR_CODE_PS_KEY : String := "ErrorCode"

/-- Modelled from the spec: `ERRNO_PS_KEY` of `Shared.h` (absent). -/
def ERRNO_PS_KEY : String := "Errno"

/-- Modelled from the spec: `ERROR_MSG_PS_KEY` of `Shared.h` (absent). -/
def ERROR_MSG_PS_KEY : String := "ErrorMessage"

/-- Modelled from the spec: `JOB_NAME_PS_KEY` of `Shared.h` (absent). -/
def JOB_NAME_PS_KEY : String := "JobName"

/-- Modelled from the spec: `JOB_ID_PS_KEY` of `Shared.h` (absent). -/
def JOB_ID_PS_KEY : String := "JobID"

/-- Modelled from the spec: `LAYER_PS_KEY` of `Shared.h` (absent). -/
def LAYER_PS_KEY : String := "Layer"

/-- Modelled from the spec: `TOTAL_LAYERS_PS_KEY` of `Shared.h` (absent). -/
def TOTAL_LAYERS_PS_KEY : String := "TotalLayers"

/-- Modelled from the spec: `SECONDS_LEFT_PS_KEY` of `Shared.h` (absent). -/
def SECONDS_LEFT_PS_KEY : String := "SecondsLeft"

/-- Modelled from the spec: `TEMPERATURE_PS_KEY` of `Shared.h` (absent). -/
def TEMPERATURE_PS_KEY : String := "Temperature"

/-- Modelled from the spec: `PRINT_RATING_PS_KEY` of `Shared.h` (absent). -/
def PRINT_RATING_PS_KEY : String := "PrintRating"

/-- Modelled from the spec: `SPARK_STATE_PS_KEY` of `Shared.h` (absent). -/
def SPARK_STATE_PS_KEY : String := "SparkState"

/-- Modelled from the spec: `SPARK_JOB_STATE_PS_KEY` of `Shared.h` (absent). -/
def SPARK_JOB_STATE_PS_KEY : String := "SparkJobState"

/-- Modelled from the spec: `LOCAL_JOB_UUID_PS_KEY` of `Shared.h` (absent). -/
def LOCAL_JOB_UUID_PS_KEY : String := "LocalJobID"

/-- Modelled from the spec: `CAN_LOAD_PS_KEY` of `Shared.h` (absent). -/
def CAN_LOAD_PS_KEY : String := "CanLoad"

/-- Modelled from the spec: `CAN_UPGRADE_PROJECTOR_PS_KEY` of `Shared.h`
(absent). -/
def CAN_UPGRADE_PROJECTOR_PS_KEY : String := "CanUpgradeProjector"

/-- Modelled from the spec: `ENTERING` of `Shared.h` (absent); the text the
table of section 6 gives for the `Change` value. -/
def ENTERING : String := "entering"

/-- Modelled from the spec: `LEAVING` of `Shared.h` (absent). -/
def LEAVING : String := "leaving"

/-- Modelled from the spec: `NO_CHANGE` of `Shared.h` (absent). -/
def NO_CHANGE : String := "none"

/-- Modelled from the spec: `PRINT_SUCCESSFUL` of `Shared.h` (absent); the
text the table of section 6 gives for the `PrintRating` value. -/
def PRINT_SUCCESSFUL : String := "succeeded"

/-- Modelled from the spec: `PRINT_FAILED` of `Shared.h` (absent). -/
def PRINT_FAILED : String := "failed"

/-- Modelled from the spec: `UNKNOWN_PRINT_FEEDBACK` of `Shared.h`
(absent). -/
def UNKNOWN_PRINT_FEEDBACK : String := "unknown"

/-! ## Execution model -/

/-- How a C++ call ends: it returns a value, a `std::exception` propagates
out of it, or its behaviour is undefined (a null pointer is read, an array
is written outside its bounds). -/
inductive Outcome (α : Type) where
  | ok (a : α)
  | thrown
  | undefined
  deriving DecidableEq, Repr

/-- One call of `Logger::HandleError` made by this file: either the
four-argument form `HandleError(code, fatal, str, value)` or the
one-argument form `HandleError(code)`. -/
inductive LogEntry where
  | report (code : Int) (fatal : Bool) (str : Option String) (value : Int)
  | reportCode (code : Int)
  deriving DecidableEq, Repr

/-- A table of C strings indexed by enumeration ordinal: cell `i` of a
static `const char*` array. A cell that was never assigned holds the null
pointer (static storage is zero-initialised). -/
abbrev NameTable := Int → Option String

/-- The mutable state around `PrinterStatus`: the function-local statics of
`GetStateName` and `GetSubStateName`, the file-level `_lastErrorMessage`,
the errors handed to `Logger::HandleError` so far (oldest first) and, as a
ghost counter, the number of `GetLastErrorMessage` calls made so far. -/
structure World where
  stateNamesInitialized : Bool
  stateNames : NameTable
  substateNamesInitialized : Bool
  substateNames : NameTable
  _lastErrorMessage : String
  errorLog : List LogEntry
  lastErrorReads : Nat

/-- The world at program start: statics zero-initialised,
`_lastErrorMessage = ""` (line 267), nothing logged. -/
def World.initial : World where
  stateNamesInitialized := false
  stateNames := fun _ => none
  substateNamesInitialized := false
  substateNames := fun _ => none
  _lastErrorMessage := ""
  errorLog := []
  lastErrorReads := 0

/-- A computation that runs in a world and ends in an outcome. The world it
leaves behind is kept also when an exception propagates. -/
def Exec (α : Type) : Type := World → Outcome α × World

/-- Sequencing: the second computation runs only if the first returned. -/
def Exec.bind {α β : Type} (m : Exec α) (f : α → Exec β) : Exec β := fun w =>
  match m w with
  | (Outcome.ok a, w1) => f a w1
  | (Outcome.thrown, w1) => (Outcome.thrown, w1)
  | (Outcome.undefined, w1) => (Outcome.undefined, w1)

instance : Monad Exec where
  pure a := fun w => (Outcome.ok a, w)
  bind := Exec.bind

/-- A step that does not touch the world. -/
def Exec.lift {α : Type} (o : Outcome α) : Exec α := fun w => (o, w)

/-- `Logger::HandleError`: the collaborator records the report. -/
def Logger.HandleError (e : LogEntry) (w : World) : World :=
  { w with errorLog := w.errorLog ++ [e] }

/-! ## State registry -/

/-- The assignments of lines 72-103, in source order: `(i, s)` stands for
the statement `stateNames[i] = s;`. -/
def stateNameAssignments (D : Decls) : List (Int × String) :=
  [ (D.PrinterOnState, D.PRINTER_ON_STATE),
    (D.DoorClosedState, D.DOOR_CLOSED_STATE),
    (D.InitializingState, D.INITIALIZING_STATE),
    (D.DoorOpenState, D.DOOR_OPEN_STATE),
    (D.HomingState, D.HOMING_STATE),
    (D.HomeState, D.HOME_STATE),
    (D.ErrorState, D.ERROR_STATE),
    (D.MovingToStartPositionState, D.MOVING_TO_START_POSITION_STATE),
    (D.InitializingLayerState, D.INITIALIZING_LAYER_STATE),
    (D.PressingState, D.PRESSING_STATE),
    (D.PressDelayState, D.PRESS_DELAY_STATE),
    (D.UnpressingState, D.UNPRESSING_STATE),
    (D.PreExposureDelayState, D.PRE_EXPOSURE_DELAY_STATE),
    (D.ExposingState, D.EXPOSING_STATE),
    (D.PrintingLayerState, D.PRINTING_LAYER_STATE),
    (D.MovingToPauseState, D.MOVING_TO_PAUSE_STATE),
    (D.PausedState, D.PAUSED_STATE),
    (D.MovingToResumeState, D.MOVING_TO_RESUME_STATE),
    (D.SeparatingState, D.SEPARATING_STATE),
    (D.ApproachingState, D.APPROACHING_STATE),
    (D.GettingFeedbackState, D.GETING_FEEDBACK_STATE),
    (D.ConfirmCancelState, D.CONFIRM_CANCEL_STATE),
    (D.AwaitingCancelationState, D.AWAITING_CANCELATION_STATE),
    (D.ShowingVersionState, D.SHOWING_VERSION_STATE),
    (D.CalibratingState, D.CALIBRATING_STATE),
    (D.RegisteringState, D.REGISTERING_STATE),
    (D.UnjammingState, D.UNJAMMING_STATE),
    (D.JammedState, D.JAMMED_STATE),
    (D.DemoModeState, D.DEMO_MODE_STATE),
    (D.ConfirmUpgradeState, D.CONFIRM_UPGRADE_STATE),
    (D.UpgradingProjectorState, D.UPGRADING_PROJECTOR_STATE),
    (D.UpgradeCompleteState, D.UPGRADE_COMPLETE_STATE) ]

/-- The assignments of lines 124-142, in source order: `(i, s)` stands for
the statement `substateNames[i] = s;`. -/
def substateNameAssignments (D : Decls) : List (Int × String) :=
  [ (D.NoUISubState, D.NO_SUBSTATE),
    (D.NoPrintData, D.NO_PRINT_DATA_SUBSTATE),
    (D.DownloadingPrintData, D.DOWNLOADING_PRINT_DATA_SUBSTATE),
    (D.PrintDownloadFailed, D.PRINT_DOWNLOAD_FAILED_SUBSTATE),
    (D.LoadingPrintData, D.LOADING_PRINT_DATA_SUBSTATE),
    (D.LoadedPrintData, D.LOADED_PRINT_DATA_SUBSTATE),
    (D.PrintDataLoadFailed, D.PRINT_DATA_LOAD_FAILED_SUBSTATE),
    (D.HavePrintData, D.HAVE_PRINT_DATA_SUBSTATE),
    (D.PrintCanceled, D.PRINT_CANCELED_SUBSTATE),
    (D.PrintCompleted, D.PRINT_COMPLETED_SUBSTATE),
    (D.ClearingScreen, D.CLEARING_SCREEN_SUBSTATE),
    (D.Registered, D.REGISTERED_SUBSTATE),
    (D.AboutToPause, D.ABOUT_TO_PAUSE_SUBSTATE),
    (D.WiFiConnecting, D.WIFI_CONNECTING_SUBSTATE),
    (D.WiFiConnectionFailed, D.WIFI_CONNECTION_FAILED_SUBSTATE),
    (D.WiFiConnected, D.WIFI_CONNECTED_SUBSTATE),
    (D.CalibratePrompt, D.CALIBRATE_PROMPT_SUBSTATE),
    (D.USBDriveFileFound, D.USB_FILE_FOUND_SUBSTATE),
    (D.USBDriveError, D.USB_DRIVE_ERROR_SUBSTATE) ]

/-- Runs a sequence of statements `table[i] = s;` on an array of `size`
cells. A write outside `[0, size)` has undefined behaviour: `none`. -/
def storeAll (size : Int) : List (Int × String) → NameTable → Option NameTable
  | [], t => some t
  | (i, s) :: rest, t =>
    if 0 ≤ i ∧ i < size then storeAll size rest (Function.update t i (some s))
    else none

/-- Reads cell `i` of an array of `size` cells; a read outside `[0, size)`
has undefined behaviour. -/
def readCell (size : Int) (t : NameTable) (i : Int) : Outcome (Option String) :=
  if 0 ≤ i ∧ i < size then Outcome.ok (t i) else Outcome.undefined

/-- `PrinterStatus::GetStateName` (lines 65-114). On the first call the
static table `stateNames[MaxPrintEngineState]` is filled and `initialized`
set; then an id outside `(Undefined, Max)` is reported to the logger and
answered with `""`, any other id with its table cell. -/
def GetStateName (D : Decls) (state : Int) : Exec (Option String) := fun w =>
  let filled : Option World :=
    if !w.stateNamesInitialized then
      (storeAll D.MaxPrintEngineState (stateNameAssignments D) w.stateNames).map
        fun t => { w with stateNames := t, stateNamesInitialized := true }
    else some w
  match filled with
  | none => (Outcome.undefined, w)
  | some w1 =>
    if state ≤ D.UndefinedPrintEngineState ∨ state ≥ D.MaxPrintEngineState then
      (Outcome.ok (some ""),
        Logger.HandleError (LogEntry.report D.UnknownPrintEngineState false none state) w1)
    else (readCell D.MaxPrintEngineState w1.stateNames state, w1)

/-- `PrinterStatus::GetSubStateName` (lines 117-153). As `GetStateName`,
with the table `substateNames[MaxUISubState]` and the range
`[NoUISubState, MaxUISubState)`. -/
def GetSubStateName (D : Decls) (substate : Int) : Exec (Option String) := fun w =>
  let filled : Option World :=
    if !w.substateNamesInitialized then
      (storeAll D.MaxUISubState (substateNameAssignments D) w.substateNames).map
        fun t => { w with substateNames := t, substateNamesInitialized := true }
    else some w
  match filled with
  | none => (Outcome.undefined, w)
  | some w1 =>
    if substate < D.NoUISubState ∨ substate ≥ D.MaxUISubState then
      (Outcome.ok (some ""),
        Logger.HandleError (LogEntry.report D.UnknownPrintEngineSubState false none substate) w1)
    else (readCell D.MaxUISubState w1.substateNames substate, w1)

/-! ## Error channel -/

/-- `PrinterStatus::SetLastErrorMsg` (lines 270-273). -/
def SetLastErrorMsg (msg : String) : Exec Unit := fun w =>
  (Outcome.ok (), { w with _lastErrorMessage := msg })

/-- `PrinterStatus::GetLastErrorMessage` (lines 276-279): returns a copy of
the stored message. The call is counted in the ghost counter. -/
def GetLastErrorMessage : Exec String := fun w =>
  (Outcome.ok w._lastErrorMessage, { w with lastErrorReads := w.lastErrorReads + 1 })

/-! ## Status document -/

/-- An IEEE-754 `double`, carried as its 64-bit pattern; the renderer only
copies it. -/
structure Double where
  bits : Nat
  deriving DecidableEq, Repr

/-- The literal `0.0`. -/
def Double.zero : Double := ⟨0⟩

/-- A scalar JSON value of the JSON library (`rapidjson::Value`). -/
inductive Value where
  | null
  | bool (b : Bool)
  | int (i : Int)
  | double (d : Double)
  | string (s : String)
  deriving DecidableEq, Repr

/-- The JSON type of a value. -/
inductive ValueType where
  | null
  | bool
  | int
  | double
  | string
  deriving DecidableEq, Repr

/-- The type of a value. -/
def Value.type : Value → ValueType
  | Value.null => ValueType.null
  | Value.bool _ => ValueType.bool
  | Value.int _ => ValueType.int
  | Value.double _ => ValueType.double
  | Value.string _ => ValueType.string

/-- A JSON object of the JSON library (`rapidjson::Document`): its members
in order. -/
abbrev Document := List (String × Value)

/-- The keys of a document, in member order. -/
def Document.keys (doc : Document) : List String := doc.map Prod.fst

/-- The value of the first member named `key`, if there is one. -/
def Document.get (doc : Document) (key : String) : Option Value :=
  (doc.find? fun m => m.1 == key).map Prod.snd

/-- The statement `doc[key] = value;`. `operator[]` finds the first member
named `key`; when there is none it fails `RAPIDJSON_ASSERT`, which lines
27-29 define to throw `std::exception`. -/
def Document.assign : Document → String → Value → Outcome Document
  | [], _, _ => Outcome.thrown
  | (k, v) :: rest, key, value =>
    if k = key then Outcome.ok ((k, value) :: rest)
    else
      match Document.assign rest key value with
      | Outcome.ok rest1 => Outcome.ok ((k, v) :: rest1)
      | Outcome.thrown => Outcome.thrown
      | Outcome.undefined => Outcome.undefined

/-- `value.SetString(s, length, allocator)`: a string value holding the
first `length` characters at `s`. -/
def SetString (s : String) (length : Nat) : Value :=
  Value.string ⟨s.data.take length⟩

/-- Reading the C string a pointer points to, as `strlen` does; undefined
for the null pointer. -/
def cString (p : Option String) : Exec String :=
  match p with
  | some s => Exec.lift (Outcome.ok s)
  | none => Exec.lift Outcome.undefined

/-- The document that `doc.Parse` builds from the template text of lines
161-181: the nineteen keys in the order written, each with the seed value
written after it. -/
def templateDocument : Document :=
  [ (STATE_PS_KEY, Value.string ""),
    (UISUBSTATE_PS_KEY, Value.string ""),
    (CHANGE_PS_KEY, Value.string ""),
    (IS_ERROR_PS_KEY, Value.bool false),
    (ERROR_CODE_PS_KEY, Value.int 0),
    (ERRNO_PS_KEY, Value.int 0),
    (ERROR_MSG_PS_KEY, Value.string ""),
    (JOB_NAME_PS_KEY, Value.string ""),
    (JOB_ID_PS_KEY, Value.string ""),
    (LAYER_PS_KEY, Value.int 0),
    (TOTAL_LAYERS_PS_KEY, Value.int 0),
    (SECONDS_LEFT_PS_KEY, Value.int 0),
    (TEMPERATURE_PS_KEY, Value.double Double.zero),
    (PRINT_RATING_PS_KEY, Value.string ""),
    (SPARK_STATE_PS_KEY, Value.string ""),
    (SPARK_JOB_STATE_PS_KEY, Value.string ""),
    (LOCAL_JOB_UUID_PS_KEY, Value.string ""),
    (CAN_LOAD_PS_KEY, Value.string ""),
    (CAN_UPGRADE_PROJECTOR_PS_KEY, Value.bool false) ]

/-- How a call of a collaborator ends: it returns a text, or a
`std::exception` propagates out of it. -/
inductive Reply where
  | returned (s : String)
  | raised
  deriving DecidableEq, Repr

/-- What the caller of a collaborator sees: the returned text, or the
exception propagating. -/
def Reply.outcome : Reply → Outcome String
  | Reply.returned s => Outcome.ok s
  | Reply.raised => Outcome.thrown

/-- The collaborators `ToString` calls: the settings store and the two
functions of the status translator, each a function of the arguments that
section 6 of the specification lists, whose call returns a text or raises;
and the JSON writer (`doc.Accept(writer)` followed by
`buffer.GetString()`). -/
structure Collaborators where
  GetString : String → Reply
  GetSparkStatus : Int → Int → Bool → Reply
  GetSparkJobStatus : Int → Int → Bool → Reply
  Accept : Document → String

/-- The data members of `PrinterStatus` that the constructor (lines 44-62)
initialises. -/
structure PrinterStatus where
  _state : Int
  _change : Int
  _UISubState : Int
  _isError : Bool
  _errorCode : Int
  _errno : Int
  _numLayers : Int
  _currentLayer : Int
  _estimatedSecondsRemaining : Int
  _temperature : Double
  _printRating : Int
  _usbDriveFileName : String
  _jobID : String
  _canLoadPrintData : Bool
  _canUpgradeProjector : Bool
  _localJobUniqueID : String
  deriving DecidableEq, Repr

/-- `PrinterStatus::PrinterStatus` (lines 44-62); `uuid` is the text that
`GetUUID` writes into `_localJobUniqueID`. -/
def PrinterStatus.new (D : Decls) (uuid : String) : PrinterStatus where
  _state := D.PrinterOnState
  _change := D.NoChange
  _UISubState := D.NoUISubState
  _isError := false
  _errorCode := D.Success
  _errno := 0
  _numLayers := 0
  _currentLayer := 0
  _estimatedSecondsRemaining := 0
  _temperature := Double.zero
  _printRating := D.Unknown
  _usbDriveFileName := ""
  _jobID := ""
  _canLoadPrintData := false
  _canUpgradeProjector := false
  _localJobUniqueID := uuid

/-- Lines 189-253 of `PrinterStatus::ToString`: the assignments that fill
the parsed document `doc`, in source order. -/
def buildDocument (D : Decls) (env : Collaborators) (ps : PrinterStatus)
    (doc : Document) : Exec Document := do
  let state ← GetStateName D ps._state
  let state ← cString state
  let doc ← Exec.lift (doc.assign STATE_PS_KEY (SetString state state.length))
  let substate ← GetSubStateName D ps._UISubState
  let substate ← cString substate
  let doc ← Exec.lift (doc.assign UISUBSTATE_PS_KEY (SetString substate substate.length))
  let value :=
    if ps._change = D.Entering then Value.string ENTERING
    else if ps._change = D.Leaving then Value.string LEAVING
    else Value.string NO_CHANGE
  let doc ← Exec.lift (doc.assign CHANGE_PS_KEY value)
  let value :=
    if ps._printRating = D.Succeeded then Value.string PRINT_SUCCESSFUL
    else if ps._printRating = D.Failed then Value.string PRINT_FAILED
    else Value.string UNKNOWN_PRINT_FEEDBACK
  let doc ← Exec.lift (doc.assign PRINT_RATING_PS_KEY value)
  let doc ← Exec.lift (doc.assign IS_ERROR_PS_KEY (Value.bool ps._isError))
  let doc ← Exec.lift (doc.assign ERROR_CODE_PS_KEY (Value.int ps._errorCode))
  let doc ← Exec.lift (doc.assign ERRNO_PS_KEY (Value.int ps._errno))
  let message ← GetLastErrorMessage
  let messageAgain ← GetLastErrorMessage
  let doc ← Exec.lift (doc.assign ERROR_MSG_PS_KEY (SetString message messageAgain.length))
  let ss ← Exec.lift (env.GetString D.JOB_NAME_SETTING).outcome
  let doc ← Exec.lift (doc.assign JOB_NAME_PS_KEY (SetString ss ss.length))
  let doc ← Exec.lift (doc.assign JOB_ID_PS_KEY (SetString ps._jobID ps._jobID.length))
  let doc ← Exec.lift (doc.assign LAYER_PS_KEY (Value.int ps._currentLayer))
  let doc ← Exec.lift (doc.assign TOTAL_LAYERS_PS_KEY (Value.int ps._numLayers))
  let doc ← Exec.lift (doc.assign SECONDS_LEFT_PS_KEY (Value.int ps._estimatedSecondsRemaining))
  let doc ← Exec.lift (doc.assign TEMPERATURE_PS_KEY (Value.double ps._temperature))
  let ss ← Exec.lift (env.GetSparkStatus ps._state ps._UISubState ps._canLoadPrintData).outcome
  let doc ← Exec.lift (doc.assign SPARK_STATE_PS_KEY (SetString ss ss.length))
  let ss ← Exec.lift
    (env.GetSparkJobStatus ps._state ps._UISubState (decide (ps._numLayers > 0))).outcome
  let doc ← Exec.lift (doc.assign SPARK_JOB_STATE_PS_KEY (SetString ss ss.length))
  let doc ← Exec.lift (doc.assign LOCAL_JOB_UUID_PS_KEY
    (SetString ps._localJobUniqueID ps._localJobUniqueID.length))
  let doc ← Exec.lift (doc.assign CAN_LOAD_PS_KEY (Value.bool ps._canLoadPrintData))
  let doc ← Exec.lift (doc.assign CAN_UPGRADE_PROJECTOR_PS_KEY (Value.bool ps._canUpgradeProjector))
  pure doc

/-- The `try` block of `PrinterStatus::ToString` (lines 185-258) started on
the parsed document `parsed`: the document is filled, handed to the writer,
and the text written, followed by a newline, is the result. The filled
document is returned with the text. -/
def renderFrom (D : Decls) (env : Collaborators) (ps : PrinterStatus)
    (parsed : Document) : Exec (Document × String) := do
  let doc ← buildDocument D env ps parsed
  pure (doc, env.Accept doc ++ "\n")

/-- The `try`/`catch` of `PrinterStatus::ToString` (lines 183-264) started
on the parsed document `parsed`: a `std::exception` from the `try` block is
caught, reported with `HandleError(PrinterStatusToString)`, and leaves
`retVal` at its initial `""`. Returns the document that was written, if
one was, with the text. -/
def renderCatching (D : Decls) (env : Collaborators) (ps : PrinterStatus)
    (parsed : Document) : Exec (Option Document × String) := fun w =>
  match renderFrom D env ps parsed w with
  | (Outcome.ok (doc, retVal), w1) => (Outcome.ok (some doc, retVal), w1)
  | (Outcome.thrown, w1) =>
    (Outcome.ok (none, ""), Logger.HandleError (LogEntry.reportCode D.PrinterStatusToString) w1)
  | (Outcome.undefined, w1) => (Outcome.undefined, w1)

/-- The document that `PrinterStatus::ToString` serialises, if the `try`
block completes, together with the returned text. -/
def ToStringDocument (D : Decls) (env : Collaborators) (ps : PrinterStatus) :
    Exec (Option Document × String) :=
  renderCatching D env ps templateDocument

/-- `PrinterStatus::ToString` (lines 156-265). -/
def ToString (D : Decls) (env : Collaborators) (ps : PrinterStatus) : Exec String := fun w =>
  match ToStringDocument D env ps w with
  | (Outcome.ok (_, retVal), w1) => (Outcome.ok retVal, w1)
  | (Outcome.thrown, w1) => (Outcome.thrown, w1)
  | (Outcome.undefined, w1) => (Outcome.undefined, w1)

/-! ## Status key -/

/-- The value of a 32-bit two's-complement `int` that holds the low 32 bits
of `x`: what a shift or an addition leaves in an `int` when the exact result
does not fit. -/
def wrapInt32 (x : Int) : Int :=
  (x + 2147483648) % 4294967296 - 2147483648

/-- `PrinterStatus::GetKey` (lines 283-289): `state | (subState << 8)`.
Both operands are promoted to the 32-bit `int`; the shift keeps the low 32
bits of `subState * 256`, and `|` is the bitwise or of two's-complement
integers, which `Int.lor` computes. -/
def GetKey (state subState : Int) : Int :=
  Int.lor state (wrapInt32 (subState <<< (8 : Int)))

/-! ## Assumptions on the absent declarations, and specification functions -/

/-- A header of the expected shape: `Undefined = 0`, the states numbered
from 1 and the substates from 0 in the order in which the tables are
filled, `Max` right after the last one, and each name spelt after its
enumerator. It shows that the assumptions below can be met. -/
def sampleDecls : Decls where
  UndefinedPrintEngineState := 0
  PrinterOnState := 1
  DoorClosedState := 2
  InitializingState := 3
  DoorOpenState := 4
  HomingState := 5
  HomeState := 6
  ErrorState := 7
  MovingToStartPositionState := 8
  InitializingLayerState := 9
  PressingState := 10
  PressDelayState := 11
  UnpressingState := 12
  PreExposureDelayState := 13
  ExposingState := 14
  PrintingLayerState := 15
  MovingToPauseState := 16
  PausedState := 17
  MovingToResumeState := 18
  SeparatingState := 19
  ApproachingState := 20
  GettingFeedbackState := 21
  ConfirmCancelState := 22
  AwaitingCancelationState := 23
  ShowingVersionState := 24
  CalibratingState := 25
  RegisteringState := 26
  UnjammingState := 27
  JammedState := 28
  DemoModeState := 29
  ConfirmUpgradeState := 30
  UpgradingProjectorState := 31
  UpgradeCompleteState := 32
  MaxPrintEngineState := 33
  NoUISubState := 0
  NoPrintData := 1
  DownloadingPrintData := 2
  PrintDownloadFailed := 3
  LoadingPrintData := 4
  LoadedPrintData := 5
  PrintDataLoadFailed := 6
  HavePrintData := 7
  PrintCanceled := 8
  PrintCompleted := 9
  ClearingScreen := 10
  Registered := 11
  AboutToPause := 12
  WiFiConnecting := 13
  WiFiConnectionFailed := 14
  WiFiConnected := 15
  CalibratePrompt := 16
  USBDriveFileFound := 17
  USBDriveError := 18
  MaxUISubState := 19
  PRINTER_ON_STATE := "PrinterOn"
  DOOR_CLOSED_STATE := "DoorClosed"
  INITIALIZING_STATE := "Initializing"
  DOOR_OPEN_STATE := "DoorOpen"
  HOMING_STATE := "Homing"
  HOME_STATE := "Home"
  ERROR_STATE := "Error"
  MOVING_TO_START_POSITION_STATE := "MovingToStartPosition"
  INITIALIZING_LAYER_STATE := "InitializingLayer"
  PRESSING_STATE := "Pressing"
  PRESS_DELAY_STATE := "PressDelay"
  UNPRESSING_STATE := "Unpressing"
  PRE_EXPOSURE_DELAY_STATE := "PreExposureDelay"
  EXPOSING_STATE := "Exposing"
  PRINTING_LAYER_STATE := "PrintingLayer"
  MOVING_TO_PAUSE_STATE := "MovingToPause"
  PAUSED_STATE := "Paused"
  MOVING_TO_RESUME_STATE := "MovingToResume"
  SEPARATING_STATE := "Separating"
  APPROACHING_STATE := "Approaching"
  GETING_FEEDBACK_STATE := "GettingFeedback"
  CONFIRM_CANCEL_STATE := "ConfirmCancel"
  AWAITING_CANCELATION_STATE := "AwaitingCancelation"
  SHOWING_VERSION_STATE := "ShowingVersion"
  CALIBRATING_STATE := "Calibrating"
  REGISTERING_STATE := "Registering"
  UNJAMMING_STATE := "Unjamming"
  JAMMED_STATE := "Jammed"
  DEMO_MODE_STATE := "DemoMode"
  CONFIRM_UPGRADE_STATE := "ConfirmUpgrade"
  UPGRADING_PROJECTOR_STATE := "UpgradingProjector"
  UPGRADE_COMPLETE_STATE := "UpgradeComplete"
  NO_SUBSTATE := "NoUISubState"
  NO_PRINT_DATA_SUBSTATE := "NoPrintData"
  DOWNLOADING_PRINT_DATA_SUBSTATE := "DownloadingPrintData"
  PRINT_DOWNLOAD_FAILED_SUBSTATE := "PrintDownloadFailed"
  LOADING_PRINT_DATA_SUBSTATE := "LoadingPrintData"
  LOADED_PRINT_DATA_SUBSTATE := "LoadedPrintData"
  PRINT_DATA_LOAD_FAILED_SUBSTATE := "PrintDataLoadFailed"
  HAVE_PRINT_DATA_SUBSTATE := "HavePrintData"
  PRINT_CANCELED_SUBSTATE := "PrintCanceled"
  PRINT_COMPLETED_SUBSTATE := "PrintCompleted"
  CLEARING_SCREEN_SUBSTATE := "ClearingScreen"
  REGISTERED_SUBSTATE := "Registered"
  ABOUT_TO_PAUSE_SUBSTATE := "AboutToPause"
  WIFI_CONNECTING_SUBSTATE := "WiFiConnecting"
  WIFI_CONNECTION_FAILED_SUBSTATE := "WiFiConnectionFailed"
  WIFI_CONNECTED_SUBSTATE := "WiFiConnected"
  CALIBRATE_PROMPT_SUBSTATE := "CalibratePrompt"
  USB_FILE_FOUND_SUBSTATE := "USBDriveFileFound"
  USB_DRIVE_ERROR_SUBSTATE := "USBDriveError"
  Success := 0
  UnknownPrintEngineState := 1
  UnknownPrintEngineSubState := 2
  PrinterStatusToString := 3
  NoChange := 0
  Entering := 1
  Leaving := 2
  Unknown := 0
  Succeeded := 1
  Failed := 2
  JOB_NAME_SETTING := "JobName"

/-- Every named state indexes a cell of `stateNames[MaxPrintEngineState]`:
the writes of lines 72-103 stay within the array. -/
def Decls.StatesInBounds (D : Decls) : Prop :=
  ∀ p ∈ stateNameAssignments D, 0 ≤ p.1 ∧ p.1 < D.MaxPrintEngineState

/-- Every named substate indexes a cell of `substateNames[MaxUISubState]`:
the writes of lines 124-142 stay within the array. -/
def Decls.SubStatesInBounds (D : Decls) : Prop :=
  ∀ p ∈ substateNameAssignments D, 0 ≤ p.1 ∧ p.1 < D.MaxUISubState

/-- The state enumeration fits the table of `GetStateName`: the named states
index cells of the table, and every id strictly between `Undefined` and
`Max` is a named state. -/
structure Decls.StatesWellFormed (D : Decls) : Prop where
  inBounds : D.StatesInBounds
  cover : ∀ s : Int, D.UndefinedPrintEngineState < s → s < D.MaxPrintEngineState →
    s ∈ (stateNameAssignments D).map Prod.fst

/-- The substate enumeration fits the table of `GetSubStateName`: the named
substates index cells of the table, and every id in
`[NoUISubState, MaxUISubState)` is a named substate. -/
structure Decls.SubStatesWellFormed (D : Decls) : Prop where
  inBounds : D.SubStatesInBounds
  cover : ∀ u : Int, D.NoUISubState ≤ u → u < D.MaxUISubState →
    u ∈ (substateNameAssignments D).map Prod.fst

/-- The name constants of the states are non-empty texts. -/
def Decls.StateNamesNonEmpty (D : Decls) : Prop :=
  ∀ p ∈ stateNameAssignments D, p.2 ≠ ""

/-- Both enumerations fit their tables. -/
structure Decls.WellFormed (D : Decls) : Prop where
  states : D.StatesWellFormed
  substates : D.SubStatesWellFormed

/-- The table that a list of assignments leaves behind when every write is
within bounds. -/
def assignAll (l : List (Int × String)) (t : NameTable) : NameTable :=
  l.foldl (fun t p => Function.update t p.1 (some p.2)) t

/-- The filled table of `GetStateName`. -/
def stateTable (D : Decls) : NameTable :=
  assignAll (stateNameAssignments D) fun _ => none

/-- The filled table of `GetSubStateName`. -/
def substateTable (D : Decls) : NameTable :=
  assignAll (substateNameAssignments D) fun _ => none

/-- A world the program can be in: each static table is either untouched
(all cells null, flag clear) or completely filled (flag set). -/
structure World.Consistent (D : Decls) (w : World) : Prop where
  states : w.stateNames =
    if w.stateNamesInitialized then stateTable D else fun _ => none
  substates : w.substateNames =
    if w.substateNamesInitialized then substateTable D else fun _ => none

/-- The world after the table of `GetStateName` has been filled. -/
def World.withStateNames (D : Decls) (w : World) : World :=
  { w with stateNames := stateTable D, stateNamesInitialized := true }

/-- The world after the table of `GetSubStateName` has been filled. -/
def World.withSubstateNames (D : Decls) (w : World) : World :=
  { w with substateNames := substateTable D, substateNamesInitialized := true }

/-- The text `GetStateName` answers with once the table is filled. -/
def stateNameOf (D : Decls) (state : Int) : String :=
  if state ≤ D.UndefinedPrintEngineState ∨ state ≥ D.MaxPrintEngineState then ""
  else (stateTable D state).getD ""

/-- The text `GetSubStateName` answers with once the table is filled. -/
def substateNameOf (D : Decls) (substate : Int) : String :=
  if substate < D.NoUISubState ∨ substate ≥ D.MaxUISubState then ""
  else (substateTable D substate).getD ""

/-- The world a `GetStateName` call leaves behind. -/
def afterGetStateName (D : Decls) (state : Int) (w : World) : World :=
  if state ≤ D.UndefinedPrintEngineState ∨ state ≥ D.MaxPrintEngineState then
    Logger.HandleError (LogEntry.report D.UnknownPrintEngineState false none state)
      (w.withStateNames D)
  else w.withStateNames D

/-- The world a `GetSubStateName` call leaves behind. -/
def afterGetSubStateName (D : Decls) (substate : Int) (w : World) : World :=
  if substate < D.NoUISubState ∨ substate ≥ D.MaxUISubState then
    Logger.HandleError (LogEntry.report D.UnknownPrintEngineSubState false none substate)
      (w.withSubstateNames D)
  else w.withSubstateNames D

/-- The answers of the collaborators to the three calls that a render of
the snapshot `ps` makes: the job name from the settings store, the printer
status and the job status from the translator. -/
structure Collaborators.Answers (env : Collaborators) (D : Decls) (ps : PrinterStatus)
    (jobName sparkState sparkJobState : String) : Prop where
  jobName : env.GetString D.JOB_NAME_SETTING = Reply.returned jobName
  sparkState :
    env.GetSparkStatus ps._state ps._UISubState ps._canLoadPrintData =
      Reply.returned sparkState
  sparkJobState :
    env.GetSparkJobStatus ps._state ps._UISubState (decide (ps._numLayers > 0)) =
      Reply.returned sparkJobState

/-- One of the three collaborator calls of a render of `ps` raises. -/
def Collaborators.Raises (env : Collaborators) (D : Decls) (ps : PrinterStatus) : Prop :=
  env.GetString D.JOB_NAME_SETTING = Reply.raised ∨
  env.GetSparkStatus ps._state ps._UISubState ps._canLoadPrintData = Reply.raised ∨
  env.GetSparkJobStatus ps._state ps._UISubState (decide (ps._numLayers > 0)) = Reply.raised

/-- The document a render produces from the state name `sn`, the substate
name `un`, the stored error message `msg` and the three answers of the
collaborators. -/
def filledDocument (D : Decls) (ps : PrinterStatus)
    (sn un msg jobName sparkState sparkJobState : String) : Document :=
  [ (STATE_PS_KEY, Value.string sn),
    (UISUBSTATE_PS_KEY, Value.string un),
    (CHANGE_PS_KEY,
      if ps._change = D.Entering then Value.string ENTERING
      else if ps._change = D.Leaving then Value.string LEAVING
      else Value.string NO_CHANGE),
    (IS_ERROR_PS_KEY, Value.bool ps._isError),
    (ERROR_CODE_PS_KEY, Value.int ps._errorCode),
    (ERRNO_PS_KEY, Value.int ps._errno),
    (ERROR_MSG_PS_KEY, Value.string msg),
    (JOB_NAME_PS_KEY, Value.string jobName),
    (JOB_ID_PS_KEY, Value.string ps._jobID),
    (LAYER_PS_KEY, Value.int ps._currentLayer),
    (TOTAL_LAYERS_PS_KEY, Value.int ps._numLayers),
    (SECONDS_LEFT_PS_KEY, Value.int ps._estimatedSecondsRemaining),
    (TEMPERATURE_PS_KEY, Value.double ps._temperature),
    (PRINT_RATING_PS_KEY,
      if ps._printRating = D.Succeeded then Value.string PRINT_SUCCESSFUL
      else if ps._printRating = D.Failed then Value.string PRINT_FAILED
      else Value.string UNKNOWN_PRINT_FEEDBACK),
    (SPARK_STATE_PS_KEY, Value.string sparkState),
    (SPARK_JOB_STATE_PS_KEY, Value.string sparkJobState),
    (LOCAL_JOB_UUID_PS_KEY, Value.string ps._localJobUniqueID),
    (CAN_LOAD_PS_KEY, Value.bool ps._canLoadPrintData),
    (CAN_UPGRADE_PROJECTOR_PS_KEY, Value.bool ps._canUpgradeProjector) ]

/-- The world a render leaves behind: both tables filled, the lookup
errors logged, the error channel read twice. -/
def afterRender (D : Decls) (ps : PrinterStatus) (w : World) : World :=
  let w2 := afterGetSubStateName D ps._UISubState (afterGetStateName D ps._state w)
  { w2 with lastErrorReads := w2.lastErrorReads + 1 + 1 }

/-- The nineteen keys of the status document, in the order of the
template. -/
def statusKeys : List String :=
  [ STATE_PS_KEY, UISUBSTATE_PS_KEY, CHANGE_PS_KEY, IS_ERROR_PS_KEY, ERROR_CODE_PS_KEY,
    ERRNO_PS_KEY, ERROR_MSG_PS_KEY, JOB_NAME_PS_KEY, JOB_ID_PS_KEY, LAYER_PS_KEY,
    TOTAL_LAYERS_PS_KEY, SECONDS_LEFT_PS_KEY, TEMPERATURE_PS_KEY, PRINT_RATING_PS_KEY,
    SPARK_STATE_PS_KEY, SPARK_JOB_STATE_PS_KEY, LOCAL_JOB_UUID_PS_KEY, CAN_LOAD_PS_KEY,
    CAN_UPGRADE_PROJECTOR_PS_KEY ]

/-- Modelled from the spec: the value type that the status-document table
of section 6 gives for each key, in the order of `statusKeys`. -/
def statusTypes : List ValueType :=
  [ ValueType.string, ValueType.string, ValueType.string, ValueType.bool, ValueType.int,
    ValueType.int, ValueType.string, ValueType.string, ValueType.string, ValueType.int,
    ValueType.int, ValueType.int, ValueType.double, ValueType.string,
    ValueType.string, ValueType.string, ValueType.string, ValueType.bool,
    ValueType.bool ]

/-- Collaborators with fixed answers, for the concrete instances. -/
def sampleCollaborators : Collaborators where
  GetString := fun _ => Reply.returned "part.tar.gz"
  GetSparkStatus := fun _ _ _ => Reply.returned "ready"
  GetSparkJobStatus := fun _ _ isPrinting =>
    if isPrinting then Reply.returned "printing" else Reply.returned "received"
  Accept := fun doc => String.intercalate "," doc.keys

/-- Collaborators whose settings store raises on every read; the translator
and the writer are those of `sampleCollaborators`. -/
def raisingCollaborators : Collaborators :=
  { sampleCollaborators with GetString := fun _ => Reply.raised }

/-- A snapshot taken while layer 5 of 20 is printed: the constructed status
with `_state = PrintingLayerState`, `_currentLayer = 5`, `_numLayers = 20`. -/
def samplePrintingStatus : PrinterStatus :=
  { PrinterStatus.new sampleDecls "0f8fad5b-d9cb-469f-a165-70867728950e" with
    _state := sampleDecls.PrintingLayerState
    _currentLayer := 5
    _numLayers := 20 }

/-- A snapshot taken in `ErrorState`: `_isError = true`, error code 42,
native error code 110. -/
def sampleErrorStatus : PrinterStatus :=
  { PrinterStatus.new sampleDecls "0f8fad5b-d9cb-469f-a165-70867728950e" with
    _state := sampleDecls.ErrorState
    _isError := true
    _errorCode := 42
    _errno := 110 }

/-! ## Further assumptions and specification functions -/

/-- The error code a log entry carries. -/
def LogEntry.code : LogEntry → Int
  | LogEntry.report code _ _ _ => code
  | LogEntry.reportCode code => code

/-- The number of `PrinterStatusToString` errors in a log. -/
def serializationErrors (D : Decls) (log : List LogEntry) : Nat :=
  log.countP fun e => decide (e.code = D.PrinterStatusToString)

/-- The error codes of the two lookup errors differ from the code of the
serialization error. -/
def Decls.ErrorCodesDistinct (D : Decls) : Prop :=
  D.UnknownPrintEngineState ≠ D.PrinterStatusToString ∧
  D.UnknownPrintEngineSubState ≠ D.PrinterStatusToString

/-- The three change tags are different values. -/
def Decls.ChangeTagsDistinct (D : Decls) : Prop :=
  D.Entering ≠ D.Leaving ∧ D.NoChange ≠ D.Entering ∧ D.NoChange ≠ D.Leaving

/-- Every named state lies above the `Undefined` sentinel. -/
def Decls.StatesAboveUndefined (D : Decls) : Prop :=
  ∀ p ∈ stateNameAssignments D, D.UndefinedPrintEngineState < p.1

/-- What a step may change in the world without touching the error channel
or adding a serialization error: the stored message and the number of
`PrinterStatusToString` errors in the log are as before. -/
def World.Frame (D : Decls) (w w1 : World) : Prop :=
  w1._lastErrorMessage = w._lastErrorMessage ∧
  serializationErrors D w1.errorLog = serializationErrors D w.errorLog

/-- A computation that, however it ends, leaves the world within the frame
of the world it started in. -/
def Exec.Framed {α : Type} (D : Decls) (m : Exec α) : Prop :=
  ∀ w, World.Frame D w (m w).2

/-- The reports that the two name lookups of a render append to the log:
one for an out-of-range state id, then one for an out-of-range substate
id. -/
def lookupReports (D : Decls) (ps : PrinterStatus) : List LogEntry :=
  (if ps._state ≤ D.UndefinedPrintEngineState ∨ ps._state ≥ D.MaxPrintEngineState then
    [LogEntry.report D.UnknownPrintEngineState false none ps._state] else []) ++
  (if ps._UISubState < D.NoUISubState ∨ ps._UISubState ≥ D.MaxUISubState then
    [LogEntry.report D.UnknownPrintEngineSubState false none ps._UISubState] else [])

/-! ## Lemmas on the name tables -/

theorem storeAll_eq_assignAll (size : Int) (l : List (Int × String)) (t : NameTable)
    (h : ∀ p ∈ l, 0 ≤ p.1 ∧ p.1 < size) : storeAll size l t = some (assignAll l t) := by
  induction l generalizing t with
  | nil => rfl
  | cons p rest ih =>
    obtain ⟨i, s⟩ := p
    have hp := h (i, s) (List.mem_cons_self _ _)
    have hrest : ∀ q ∈ rest, 0 ≤ q.1 ∧ q.1 < size :=
      fun q hq => h q (List.mem_cons_of_mem _ hq)
    simp only [storeAll, assignAll, List.foldl_cons]
    rw [if_pos hp]
    exact ih _ hrest

theorem assignAll_of_not_mem (l : List (Int × String)) (t : NameTable) (i : Int)
    (h : i ∉ l.map Prod.fst) : assignAll l t i = t i := by
  induction l generalizing t with
  | nil => rfl
  | cons p rest ih =>
    simp only [List.map_cons, List.mem_cons, not_or] at h
    simp only [assignAll, List.foldl_cons]
    have := ih (Function.update t p.1 (some p.2)) h.2
    simp only [assignAll] at this
    rw [this, Function.update_noteq h.1]

theorem assignAll_of_mem (l : List (Int × String)) (t : NameTable) (i : Int)
    (h : i ∈ l.map Prod.fst) : ∃ p ∈ l, p.1 = i ∧ assignAll l t i = some p.2 := by
  induction l generalizing t with
  | nil => simp at h
  | cons p rest ih =>
    by_cases hr : i ∈ rest.map Prod.fst
    · obtain ⟨q, hq, hqi, hval⟩ := ih (Function.update t p.1 (some p.2)) hr
      exact ⟨q, List.mem_cons_of_mem _ hq, hqi, hval⟩
    · have hi : p.1 = i := by
        simp only [List.map_cons, List.mem_cons] at h
        rcases h with h | h
        · exact h.symm
        · exact absurd h hr
      refine ⟨p, List.mem_cons_self _ _, hi, ?_⟩
      have := assignAll_of_not_mem rest (Function.update t p.1 (some p.2)) i hr
      simp only [assignAll, List.foldl_cons] at this ⊢
      rw [this, ← hi, Function.update_same]

theorem assignAll_of_nodup (l : List (Int × String)) (t : NameTable)
    (hd : (l.map Prod.fst).Nodup) (p : Int × String) (hp : p ∈ l) :
    assignAll l t p.1 = some p.2 := by
  induction l generalizing t with
  | nil => simp at hp
  | cons q rest ih =>
    simp only [List.map_cons, List.nodup_cons] at hd
    simp only [assignAll, List.foldl_cons]
    rcases List.mem_cons.mp hp with h | h
    · subst h
      have := assignAll_of_not_mem rest (Function.update t p.1 (some p.2)) p.1 hd.1
      simp only [assignAll] at this
      rw [this, Function.update_same]
    · exact ih _ hd.2 h

theorem World.withStateNames_of_initialized (D : Decls) (w : World)
    (hw : w.Consistent D) (hi : w.stateNamesInitialized = true) :
    w.withStateNames D = w := by
  have h := hw.states
  rw [hi] at h
  simp only [if_true] at h
  cases w
  simp only [World.withStateNames] at *
  simp_all

theorem World.withSubstateNames_of_initialized (D : Decls) (w : World)
    (hw : w.Consistent D) (hi : w.substateNamesInitialized = true) :
    w.withSubstateNames D = w := by
  have h := hw.substates
  rw [hi] at h
  simp only [if_true] at h
  cases w
  simp only [World.withSubstateNames] at *
  simp_all

theorem GetStateName_eq (D : Decls) (hD : D.StatesWellFormed) (state : Int) (w : World)
    (hw : w.Consistent D) :
    GetStateName D state w =
      if state ≤ D.UndefinedPrintEngineState ∨ state ≥ D.MaxPrintEngineState then
        (Outcome.ok (some ""),
          Logger.HandleError (LogEntry.report D.UnknownPrintEngineState false none state)
            (w.withStateNames D))
      else (readCell D.MaxPrintEngineState (stateTable D) state, w.withStateNames D) := by
  cases hi : w.stateNamesInitialized with
  | true =>
    have hww := World.withStateNames_of_initialized D w hw hi
    have hs : w.stateNames = stateTable D := by
      have h := hw.states
      rw [hi] at h
      simpa using h
    simp only [GetStateName, hi, hww, Bool.not_true, Bool.false_eq_true, if_false, hs]
  | false =>
    have hs : w.stateNames = fun _ => none := by
      have h := hw.states
      rw [hi] at h
      simpa using h
    simp only [GetStateName, hi, hs,
      storeAll_eq_assignAll _ _ _ hD.inBounds]
    rfl

theorem GetSubStateName_eq (D : Decls) (hD : D.SubStatesWellFormed) (substate : Int)
    (w : World) (hw : w.Consistent D) :
    GetSubStateName D substate w =
      if substate < D.NoUISubState ∨ substate ≥ D.MaxUISubState then
        (Outcome.ok (some ""),
          Logger.HandleError (LogEntry.report D.UnknownPrintEngineSubState false none substate)
            (w.withSubstateNames D))
      else (readCell D.MaxUISubState (substateTable D) substate, w.withSubstateNames D) := by
  cases hi : w.substateNamesInitialized with
  | true =>
    have hww := World.withSubstateNames_of_initialized D w hw hi
    have hs : w.substateNames = substateTable D := by
      have h := hw.substates
      rw [hi] at h
      simpa using h
    simp only [GetSubStateName, hi, hww, Bool.not_true, Bool.false_eq_true, if_false, hs]
  | false =>
    have hs : w.substateNames = fun _ => none := by
      have h := hw.substates
      rw [hi] at h
      simpa using h
    simp only [GetSubStateName, hi, hs,
      storeAll_eq_assignAll _ _ _ hD.inBounds]
    rfl

theorem stateTable_of_valid (D : Decls) (hD : D.StatesWellFormed) (state : Int)
    (h1 : D.UndefinedPrintEngineState < state) (h2 : state < D.MaxPrintEngineState) :
    ∃ name, (state, name) ∈ stateNameAssignments D ∧ stateTable D state = some name ∧
      readCell D.MaxPrintEngineState (stateTable D) state = Outcome.ok (some name) := by
  obtain ⟨p, hp, hps, hval⟩ :=
    assignAll_of_mem (stateNameAssignments D) (fun _ => none) state (hD.cover state h1 h2)
  have hb := hD.inBounds p hp
  rw [hps] at hb
  refine ⟨p.2, ?_, hval, ?_⟩
  · rw [← hps]
    exact hp
  · simp only [readCell, if_pos hb]
    exact congrArg Outcome.ok hval

theorem substateTable_of_valid (D : Decls) (hD : D.SubStatesWellFormed) (substate : Int)
    (h1 : D.NoUISubState ≤ substate) (h2 : substate < D.MaxUISubState) :
    ∃ name, (substate, name) ∈ substateNameAssignments D ∧
      substateTable D substate = some name ∧
      readCell D.MaxUISubState (substateTable D) substate = Outcome.ok (some name) := by
  obtain ⟨p, hp, hps, hval⟩ :=
    assignAll_of_mem (substateNameAssignments D) (fun _ => none) substate
      (hD.cover substate h1 h2)
  have hb := hD.inBounds p hp
  rw [hps] at hb
  refine ⟨p.2, ?_, hval, ?_⟩
  · rw [← hps]
    exact hp
  · simp only [readCell, if_pos hb]
    exact congrArg Outcome.ok hval

theorem World.withStateNames_consistent (D : Decls) (w : World) (hw : w.Consistent D) :
    (w.withStateNames D).Consistent D :=
  ⟨by simp [World.withStateNames], by simpa [World.withStateNames] using hw.substates⟩

theorem World.withSubstateNames_consistent (D : Decls) (w : World) (hw : w.Consistent D) :
    (w.withSubstateNames D).Consistent D :=
  ⟨by simpa [World.withSubstateNames] using hw.states, by simp [World.withSubstateNames]⟩

theorem Logger.HandleError_consistent (D : Decls) (e : LogEntry) (w : World)
    (hw : w.Consistent D) : (Logger.HandleError e w).Consistent D :=
  ⟨by simpa [Logger.HandleError] using hw.states,
   by simpa [Logger.HandleError] using hw.substates⟩

theorem World.initial_consistent (D : Decls) : World.initial.Consistent D :=
  ⟨by simp [World.initial], by simp [World.initial]⟩

theorem sampleDecls_statesWellFormed : sampleDecls.StatesWellFormed := by
  constructor
  · intro p hp
    simp only [stateNameAssignments, sampleDecls, List.mem_cons, List.mem_singleton,
      List.not_mem_nil, or_false] at hp
    rcases hp with h | h | h | h | h | h | h | h | h | h | h | h | h | h | h | h | h | h | h
      | h | h | h | h | h | h | h | h | h | h | h | h | h <;> subst h <;> decide
  · intro s h1 h2
    have h1 : 0 < s := h1
    have h2 : s < 33 := h2
    simp only [stateNameAssignments, sampleDecls, List.map_cons, List.map_nil, List.mem_cons,
      List.mem_singleton, List.not_mem_nil, or_false]
    omega

theorem sampleDecls_subStatesWellFormed : sampleDecls.SubStatesWellFormed := by
  constructor
  · intro p hp
    simp only [substateNameAssignments, sampleDecls, List.mem_cons, List.mem_singleton,
      List.not_mem_nil, or_false] at hp
    rcases hp with h | h | h | h | h | h | h | h | h | h | h | h | h | h | h | h | h | h | h
      <;> subst h <;> decide
  · intro u h1 h2
    have h1 : 0 ≤ u := h1
    have h2 : u < 19 := h2
    simp only [substateNameAssignments, sampleDecls, List.map_cons, List.map_nil,
      List.mem_cons, List.mem_singleton, List.not_mem_nil, or_false]
    omega

theorem sampleDecls_wellFormed : sampleDecls.WellFormed :=
  ⟨sampleDecls_statesWellFormed, sampleDecls_subStatesWellFormed⟩

theorem sampleDecls_stateNamesNonEmpty : sampleDecls.StateNamesNonEmpty := by
  intro p hp
  simp only [stateNameAssignments, sampleDecls, List.mem_cons, List.mem_singleton,
    List.not_mem_nil, or_false] at hp
  rcases hp with h | h | h | h | h | h | h | h | h | h | h | h | h | h | h | h | h | h | h
    | h | h | h | h | h | h | h | h | h | h | h | h | h <;> subst h <;> decide

/-! ## The state registry -/

/-- C1. An id outside `(Undefined, Max)` (the `Undefined` sentinel included)
makes `GetStateName` return (not throw) the empty string and append exactly
one report `HandleError(UnknownPrintEngineState, false, NULL, id)` to the
log, in whatever world it is called, as long as the table writes are within
bounds. -/
theorem GetStateName_out_of_range (D : Decls) (hD : D.StatesInBounds) (state : Int)
    (w : World)
    (h : state ≤ D.UndefinedPrintEngineState ∨ state ≥ D.MaxPrintEngineState) :
    ∃ w1, GetStateName D state w = (Outcome.ok (some ""), w1) ∧
      w1.errorLog =
        w.errorLog ++ [LogEntry.report D.UnknownPrintEngineState false none state] := by
  cases hi : w.stateNamesInitialized with
  | true =>
    simp only [GetStateName, hi, Bool.not_true, Bool.false_eq_true, if_false, if_pos h]
    exact ⟨_, rfl, rfl⟩
  | false =>
    simp only [GetStateName, hi, Bool.not_false, if_true,
      storeAll_eq_assignAll _ _ _ hD, Option.map_some', if_pos h]
    exact ⟨_, rfl, rfl⟩

/-- Witness of C1: state id 255 with `Max = 33`, in the initial world. -/
theorem GetStateName_out_of_range_witness :
    sampleDecls.StatesInBounds ∧
    ((255 : Int) ≤ sampleDecls.UndefinedPrintEngineState ∨
      (255 : Int) ≥ sampleDecls.MaxPrintEngineState) ∧
    ∃ w1, GetStateName sampleDecls 255 World.initial = (Outcome.ok (some ""), w1) ∧
      w1.errorLog = World.initial.errorLog ++
        [LogEntry.report sampleDecls.UnknownPrintEngineState false none 255] :=
  ⟨sampleDecls_statesWellFormed.inBounds, Or.inr (by decide),
    GetStateName_out_of_range sampleDecls sampleDecls_statesWellFormed.inBounds 255
      World.initial (Or.inr (by decide))⟩

/-- C2. For a state id strictly between `Undefined` and `Max` there is one
name, the content of the table cell of that id and the text of one of the
assignments of lines 72-103, non-empty when the name constants are, that
`GetStateName` returns in every world the program can be in: in the world
whose table is still unfilled (the first call) and in every world whose
table is filled (all later calls). The call appends nothing to the log and
leaves the table filled. -/
theorem GetStateName_valid (D : Decls) (hD : D.StatesWellFormed)
    (hn : D.StateNamesNonEmpty) (state : Int)
    (h1 : D.UndefinedPrintEngineState < state) (h2 : state < D.MaxPrintEngineState) :
    ∃ name, (state, name) ∈ stateNameAssignments D ∧ stateTable D state = some name ∧
      name ≠ "" ∧
      ∀ w : World, w.Consistent D →
        ∃ w1, GetStateName D state w = (Outcome.ok (some name), w1) ∧
          w1.errorLog = w.errorLog ∧ w1.stateNamesInitialized = true ∧
          w1.Consistent D := by
  obtain ⟨name, hmem, htab, hread⟩ := stateTable_of_valid D hD state h1 h2
  refine ⟨name, hmem, htab, hn _ hmem, ?_⟩
  intro w hw
  have hrange : ¬ (state ≤ D.UndefinedPrintEngineState ∨ state ≥ D.MaxPrintEngineState) := by
    omega
  refine ⟨w.withStateNames D, ?_, rfl, rfl, World.withStateNames_consistent D w hw⟩
  rw [GetStateName_eq D hD state w hw, if_neg hrange, hread]

/-- Witness of C2: `ExposingState` (id 14) of the sample header; the first
call, in the initial world, and a second call in the world the first one
leaves behind return the same name. -/
theorem GetStateName_valid_witness :
    sampleDecls.StatesWellFormed ∧ sampleDecls.StateNamesNonEmpty ∧
    sampleDecls.UndefinedPrintEngineState < 14 ∧ (14 : Int) < sampleDecls.MaxPrintEngineState ∧
    ∃ name, (14, name) ∈ stateNameAssignments sampleDecls ∧
      stateTable sampleDecls 14 = some name ∧ name ≠ "" ∧
      ∀ w : World, w.Consistent sampleDecls →
        ∃ w1, GetStateName sampleDecls 14 w = (Outcome.ok (some name), w1) ∧
          w1.errorLog = w.errorLog ∧ w1.stateNamesInitialized = true ∧
          w1.Consistent sampleDecls :=
  ⟨sampleDecls_statesWellFormed, sampleDecls_stateNamesNonEmpty, by decide, by decide,
    GetStateName_valid sampleDecls sampleDecls_statesWellFormed
      sampleDecls_stateNamesNonEmpty 14 (by decide) (by decide)⟩

/-- C3. `GetSubStateName` logs exactly when the id is out of range. For an
id in `[NoUISubState, MaxUISubState)` (the `NoUISubState` sentinel
included) it returns the content of the table cell of that id, which is the
text of one of the assignments of lines 124-142, and appends nothing to the
log; for every other id it returns the empty string and appends exactly one
report `HandleError(UnknownPrintEngineSubState, false, NULL, id)`. -/
theorem GetSubStateName_spec (D : Decls) (hD : D.SubStatesWellFormed) (substate : Int)
    (w : World) (hw : w.Consistent D) :
    (D.NoUISubState ≤ substate ∧ substate < D.MaxUISubState →
      ∃ name w1, (substate, name) ∈ substateNameAssignments D ∧
        substateTable D substate = some name ∧
        GetSubStateName D substate w = (Outcome.ok (some name), w1) ∧
        w1.errorLog = w.errorLog) ∧
    (¬ (D.NoUISubState ≤ substate ∧ substate < D.MaxUISubState) →
      ∃ w1, GetSubStateName D substate w = (Outcome.ok (some ""), w1) ∧
        w1.errorLog =
          w.errorLog ++
            [LogEntry.report D.UnknownPrintEngineSubState false none substate]) := by
  constructor
  · rintro ⟨h1, h2⟩
    obtain ⟨name, hmem, htab, hread⟩ := substateTable_of_valid D hD substate h1 h2
    have hrange : ¬ (substate < D.NoUISubState ∨ substate ≥ D.MaxUISubState) := by omega
    refine ⟨name, w.withSubstateNames D, hmem, htab, ?_, rfl⟩
    rw [GetSubStateName_eq D hD substate w hw, if_neg hrange, hread]
  · intro h
    have hrange : substate < D.NoUISubState ∨ substate ≥ D.MaxUISubState := by omega
    refine ⟨Logger.HandleError
      (LogEntry.report D.UnknownPrintEngineSubState false none substate)
      (w.withSubstateNames D), ?_, rfl⟩
    rw [GetSubStateName_eq D hD substate w hw, if_pos hrange]

/-- Witness of C3: in the initial world of the sample header, substate id 0
(`NoUISubState`) is answered from the table without a report, and id 19
(`MaxUISubState`) with the empty string and one report. -/
theorem GetSubStateName_spec_witness :
    sampleDecls.SubStatesWellFormed ∧ World.initial.Consistent sampleDecls ∧
    (∃ name w1, (0, name) ∈ substateNameAssignments sampleDecls ∧
        substateTable sampleDecls 0 = some name ∧
        GetSubStateName sampleDecls 0 World.initial = (Outcome.ok (some name), w1) ∧
        w1.errorLog = World.initial.errorLog) ∧
    (∃ w1, GetSubStateName sampleDecls 19 World.initial = (Outcome.ok (some ""), w1) ∧
        w1.errorLog =
          World.initial.errorLog ++
            [LogEntry.report sampleDecls.UnknownPrintEngineSubState false none 19]) :=
  ⟨sampleDecls_subStatesWellFormed, World.initial_consistent sampleDecls,
    (GetSubStateName_spec sampleDecls sampleDecls_subStatesWellFormed 0 World.initial
      (World.initial_consistent sampleDecls)).1 ⟨by decide, by decide⟩,
    (GetSubStateName_spec sampleDecls sampleDecls_subStatesWellFormed 19 World.initial
      (World.initial_consistent sampleDecls)).2 (by decide)⟩

/-! ## The status key -/

theorem shiftLeft_lor_distrib (a b : Nat) : (a ||| b) <<< 8 = a <<< 8 ||| b <<< 8 := by
  apply Nat.eq_of_testBit_eq
  intro i
  simp only [Nat.testBit_shiftLeft, Nat.testBit_or]
  cases decide (i ≥ 8) <;> simp

theorem wrapInt32_of_range (x : Int) (h0 : -2147483648 ≤ x) (h1 : x < 2147483648) :
    wrapInt32 x = x := by
  unfold wrapInt32
  omega

theorem lor_shiftLeft_ofNat (a b : Nat) (hb : b < 8388608) :
    Int.lor (a : Int) (wrapInt32 ((b : Int) <<< (8 : Int))) = ((a ||| b <<< 8 : Nat) : Int) := by
  rw [show (8 : Int) = ((8 : Nat) : Int) from rfl, Int.shiftLeft_coe_nat]
  have hlt : b <<< 8 < 2147483648 := by
    rw [Nat.shiftLeft_eq]
    omega
  rw [wrapInt32_of_range _ (by omega) (by exact_mod_cast hlt)]
  rfl

theorem GetKey_ofNat (h s u : Nat) (hs : s < 256) (hu : u < 8388608) :
    GetKey ((256 * h + s : Nat) : Int) (u : Int) = ((256 * (h ||| u) + s : Nat) : Int) := by
  unfold GetKey
  rw [lor_shiftLeft_ofNat _ _ hu]
  congr 1
  have e1 : 256 * h + s = h <<< 8 ||| s := by
    rw [Nat.shiftLeft_eq, Nat.mul_comm h]
    exact Nat.mul_add_lt_is_or (show s < 2 ^ 8 from hs) h
  have e2 : 256 * (h ||| u) + s = (h ||| u) <<< 8 ||| s := by
    rw [Nat.shiftLeft_eq, Nat.mul_comm (h ||| u)]
    exact Nat.mul_add_lt_is_or (show s < 2 ^ 8 from hs) (h ||| u)
  rw [e1, e2, shiftLeft_lor_distrib, Nat.lor_assoc, Nat.lor_comm s, ← Nat.lor_assoc]

theorem GetKey_eq_add (s u : Int) (hs0 : 0 ≤ s) (hs : s < 256) (hu0 : 0 ≤ u)
    (hu : u < 8388608) : GetKey s u = s + 256 * u := by
  obtain ⟨a, rfl⟩ := Int.eq_ofNat_of_zero_le hs0
  obtain ⟨b, rfl⟩ := Int.eq_ofNat_of_zero_le hu0
  have ha : a < 256 := by omega
  have hb : b < 8388608 := by omega
  have := GetKey_ofNat 0 a b ha hb
  simp only [Nat.mul_zero, Nat.zero_add, Nat.zero_or] at this
  rw [this]
  push_cast
  ring

/-- Where the shifted substate does not fit the `int`, the key wraps:
substate `2^23` is shifted to `-2^31`, and substate `2^24` gives the key 0,
the key of substate 0. -/
theorem GetKey_wraps :
    wrapInt32 ((8388608 : Int) <<< (8 : Int)) = -2147483648 ∧
    GetKey 0 16777216 = 0 ∧ GetKey 14 16777216 = GetKey 14 0 := by
  decide

/-- C4. On ids in `[0, 256)` the key is collision-free: two pairs get the
same key exactly when they are the same pair. -/
theorem GetKey_injective (s1 s2 u1 u2 : Int)
    (hs1 : 0 ≤ s1 ∧ s1 < 256) (hs2 : 0 ≤ s2 ∧ s2 < 256)
    (hu1 : 0 ≤ u1 ∧ u1 < 256) (hu2 : 0 ≤ u2 ∧ u2 < 256) :
    GetKey s1 u1 = GetKey s2 u2 ↔ s1 = s2 ∧ u1 = u2 := by
  rw [GetKey_eq_add s1 u1 hs1.1 hs1.2 hu1.1 (by omega),
    GetKey_eq_add s2 u2 hs2.1 hs2.2 hu2.1 (by omega)]
  omega

/-- Witness of C4: the pairs (14, 0) and (14, 12). -/
theorem GetKey_injective_witness :
    ((0 : Int) ≤ 14 ∧ (14 : Int) < 256) ∧ ((0 : Int) ≤ 0 ∧ (0 : Int) < 256) ∧
    ((0 : Int) ≤ 12 ∧ (12 : Int) < 256) ∧
    (GetKey 14 0 = GetKey 14 12 ↔ (14 : Int) = 14 ∧ (0 : Int) = 12) :=
  ⟨by decide, by decide, by decide,
    GetKey_injective 14 14 0 12 (by decide) (by decide) (by decide) (by decide)⟩

/-- Counterexample to C5: the pairs (256, 0) and (0, 1) are distinct, no
failure is signalled for state id 256, and both get the key 256. -/
theorem GetKey_collision :
    GetKey 256 0 = 256 ∧ GetKey 0 1 = 256 ∧ ((256 : Int), (0 : Int)) ≠ ((0 : Int), (1 : Int)) := by
  decide

/-- C5, amended. `GetKey` does not check the capacity and signals no
failure: for a state id `256 * h + s` with `0 ≤ s < 256` and `0 ≤ h < 2^23`
and a substate id `u` with `0 ≤ u < 2^23`, where nothing overflows the
32-bit `int`, it returns the key `s + 256 * (h | u)`, the bits of the state
above the low byte being OR-ed into the substate; so the pair
`(256 * h + s, u)` gets the key of the pair `(s, h | u)`. -/
theorem GetKey_unchecked (h s u : Int) (hh : 0 ≤ h ∧ h < 8388608) (hs : 0 ≤ s ∧ s < 256)
    (hu : 0 ≤ u ∧ u < 8388608) :
    GetKey (256 * h + s) u = s + 256 * Int.lor h u ∧
    GetKey (256 * h + s) u = GetKey s (Int.lor h u) ∧
    (0 ≤ 256 * h + s ∧ 256 * h + s < 2147483648) ∧
    (0 ≤ GetKey (256 * h + s) u ∧ GetKey (256 * h + s) u < 2147483648) := by
  obtain ⟨a, rfl⟩ := Int.eq_ofNat_of_zero_le hh.1
  obtain ⟨b, rfl⟩ := Int.eq_ofNat_of_zero_le hs.1
  obtain ⟨c, rfl⟩ := Int.eq_ofNat_of_zero_le hu.1
  have ha : a < 2 ^ 23 := by omega
  have hb : b < 256 := by omega
  have hc : c < 2 ^ 23 := by omega
  have hc1 : c < 8388608 := by omega
  have hor : a ||| c < 2 ^ 23 := Nat.or_lt_two_pow ha hc
  have hor1 : a ||| c < 8388608 := by omega
  have hlor : Int.lor (a : Int) (c : Int) = ((a ||| c : Nat) : Int) := rfl
  have key := GetKey_ofNat a b c hb hc1
  have e : (256 * (a : Int) + (b : Int)) = ((256 * a + b : Nat) : Int) := by push_cast; ring
  rw [e, key, hlor]
  refine ⟨?_, ?_, ?_, ?_⟩
  · push_cast
    ring
  · rw [GetKey_eq_add (b : Int) ((a ||| c : Nat) : Int) hs.1 hs.2 (Int.ofNat_nonneg _)
      (by exact_mod_cast hor1)]
    push_cast
    ring
  · omega
  · omega

/-- Witness of C5 amended: state id 256 = 256 * 1 + 0 with substate 0 gets
the key of the pair (0, 1). -/
theorem GetKey_unchecked_witness :
    ((0 : Int) ≤ 1 ∧ (1 : Int) < 8388608) ∧ ((0 : Int) ≤ 0 ∧ (0 : Int) < 256) ∧
    ((0 : Int) ≤ 0 ∧ (0 : Int) < 8388608) ∧
    (GetKey (256 * 1 + 0) 0 = 0 + 256 * Int.lor 1 0 ∧
      GetKey (256 * 1 + 0) 0 = GetKey 0 (Int.lor 1 0) ∧
      ((0 : Int) ≤ 256 * 1 + 0 ∧ (256 * 1 + 0 : Int) < 2147483648) ∧
      (0 ≤ GetKey (256 * 1 + 0) 0 ∧ GetKey (256 * 1 + 0) 0 < 2147483648)) :=
  ⟨by decide, by decide, by decide,
    GetKey_unchecked 1 0 0 (by decide) (by decide) (by decide)⟩

/-- C6. On ids in `[0, 256)` the key is `state + 256 * substate`: its low
byte is the state and the byte above it the substate. -/
theorem GetKey_bytes (s u : Int) (hs : 0 ≤ s ∧ s < 256) (hu : 0 ≤ u ∧ u < 256) :
    GetKey s u = s + 256 * u ∧ GetKey s u % 256 = s ∧ GetKey s u / 256 = u := by
  rw [GetKey_eq_add s u hs.1 hs.2 hu.1 (by omega)]
  omega

/-- Witness of C6: state 14 and substate 12 give the key 3086. -/
theorem GetKey_bytes_witness :
    ((0 : Int) ≤ 14 ∧ (14 : Int) < 256) ∧ ((0 : Int) ≤ 12 ∧ (12 : Int) < 256) ∧
    (GetKey 14 12 = 14 + 256 * 12 ∧ GetKey 14 12 % 256 = 14 ∧ GetKey 14 12 / 256 = 12) :=
  ⟨by decide, by decide, GetKey_bytes 14 12 (by decide) (by decide)⟩

/-! ## The renderer -/

theorem SetString_length (s : String) : SetString s s.length = Value.string s := by
  cases s
  simp [SetString, String.length]

theorem buildDocument_template (D : Decls) (env : Collaborators) (ps : PrinterStatus)
    (w : World) :
    buildDocument D env ps templateDocument w =
      match GetStateName D ps._state w with
      | (Outcome.ok (some sn), w1) =>
        match GetSubStateName D ps._UISubState w1 with
        | (Outcome.ok (some un), w2) =>
          match env.GetString D.JOB_NAME_SETTING,
            env.GetSparkStatus ps._state ps._UISubState ps._canLoadPrintData,
            env.GetSparkJobStatus ps._state ps._UISubState (decide (ps._numLayers > 0)) with
          | Reply.returned jobName, Reply.returned sparkState, Reply.returned sparkJobState =>
            (Outcome.ok (filledDocument D ps sn un w2._lastErrorMessage jobName sparkState
              sparkJobState), { w2 with lastErrorReads := w2.lastErrorReads + 1 + 1 })
          | _, _, _ =>
            (Outcome.thrown, { w2 with lastErrorReads := w2.lastErrorReads + 1 + 1 })
        | (Outcome.ok none, w2) => (Outcome.undefined, w2)
        | (Outcome.thrown, w2) => (Outcome.thrown, w2)
        | (Outcome.undefined, w2) => (Outcome.undefined, w2)
      | (Outcome.ok none, w1) => (Outcome.undefined, w1)
      | (Outcome.thrown, w1) => (Outcome.thrown, w1)
      | (Outcome.undefined, w1) => (Outcome.undefined, w1) := by
  simp only [buildDocument, bind, Exec.bind]
  generalize GetStateName D ps._state w = r1
  obtain ⟨o1, w1⟩ := r1
  rcases o1 with (_ | sn) | _ | _
  · rfl
  · simp only [cString, Exec.lift, SetString_length, templateDocument, Document.assign,
      STATE_PS_KEY, UISUBSTATE_PS_KEY, CHANGE_PS_KEY, IS_ERROR_PS_KEY,
        ERROR_CODE_PS_KEY, ERRNO_PS_KEY, ERROR_MSG_PS_KEY, JOB_NAME_PS_KEY,
        JOB_ID_PS_KEY, LAYER_PS_KEY, TOTAL_LAYERS_PS_KEY, SECONDS_LEFT_PS_KEY,
        TEMPERATURE_PS_KEY, PRINT_RATING_PS_KEY, SPARK_STATE_PS_KEY,
        SPARK_JOB_STATE_PS_KEY, LOCAL_JOB_UUID_PS_KEY, CAN_LOAD_PS_KEY,
        CAN_UPGRADE_PROJECTOR_PS_KEY]
    simp only [String.reduceEq, if_true, if_false]
    generalize GetSubStateName D ps._UISubState w1 = r2
    obtain ⟨o2, w2⟩ := r2
    rcases o2 with (_ | un) | _ | _
    · rfl
    · generalize env.GetString D.JOB_NAME_SETTING = a1
      generalize env.GetSparkStatus ps._state ps._UISubState ps._canLoadPrintData = a2
      generalize
        env.GetSparkJobStatus ps._state ps._UISubState (decide (ps._numLayers > 0)) = a3
      rcases a1 with jobName | _ <;> rcases a2 with sparkState | _ <;>
        rcases a3 with sparkJobState | _ <;>
        simp [GetLastErrorMessage, SetString_length, filledDocument, Reply.outcome,
          Document.assign, pure, Exec.lift, cString,
          STATE_PS_KEY, UISUBSTATE_PS_KEY, CHANGE_PS_KEY, IS_ERROR_PS_KEY,
        ERROR_CODE_PS_KEY, ERRNO_PS_KEY, ERROR_MSG_PS_KEY, JOB_NAME_PS_KEY,
        JOB_ID_PS_KEY, LAYER_PS_KEY, TOTAL_LAYERS_PS_KEY, SECONDS_LEFT_PS_KEY,
        TEMPERATURE_PS_KEY, PRINT_RATING_PS_KEY, SPARK_STATE_PS_KEY,
        SPARK_JOB_STATE_PS_KEY, LOCAL_JOB_UUID_PS_KEY, CAN_LOAD_PS_KEY,
        CAN_UPGRADE_PROJECTOR_PS_KEY]
    · rfl
    · rfl
  · rfl
  · rfl

theorem GetStateName_ok (D : Decls) (hD : D.StatesWellFormed) (state : Int) (w : World)
    (hw : w.Consistent D) :
    GetStateName D state w =
      (Outcome.ok (some (stateNameOf D state)), afterGetStateName D state w) := by
  rw [GetStateName_eq D hD state w hw]
  by_cases h : state ≤ D.UndefinedPrintEngineState ∨ state ≥ D.MaxPrintEngineState
  · simp only [stateNameOf, afterGetStateName, if_pos h]
  · obtain ⟨name, _, htab, hread⟩ :=
      stateTable_of_valid D hD state (by omega) (by omega)
    simp only [stateNameOf, afterGetStateName, if_neg h, hread, htab, Option.getD_some]

theorem GetSubStateName_ok (D : Decls) (hD : D.SubStatesWellFormed) (substate : Int)
    (w : World) (hw : w.Consistent D) :
    GetSubStateName D substate w =
      (Outcome.ok (some (substateNameOf D substate)), afterGetSubStateName D substate w) := by
  rw [GetSubStateName_eq D hD substate w hw]
  by_cases h : substate < D.NoUISubState ∨ substate ≥ D.MaxUISubState
  · simp only [substateNameOf, afterGetSubStateName, if_pos h]
  · obtain ⟨name, _, htab, hread⟩ :=
      substateTable_of_valid D hD substate (by omega) (by omega)
    simp only [substateNameOf, afterGetSubStateName, if_neg h, hread, htab, Option.getD_some]

theorem afterGetStateName_consistent (D : Decls) (state : Int) (w : World)
    (hw : w.Consistent D) : (afterGetStateName D state w).Consistent D := by
  unfold afterGetStateName
  split
  · exact Logger.HandleError_consistent D _ _ (World.withStateNames_consistent D w hw)
  · exact World.withStateNames_consistent D w hw

theorem afterGetSubStateName_consistent (D : Decls) (substate : Int) (w : World)
    (hw : w.Consistent D) : (afterGetSubStateName D substate w).Consistent D := by
  unfold afterGetSubStateName
  split
  · exact Logger.HandleError_consistent D _ _ (World.withSubstateNames_consistent D w hw)
  · exact World.withSubstateNames_consistent D w hw

theorem afterGetStateName_lastErrorMessage (D : Decls) (state : Int) (w : World) :
    (afterGetStateName D state w)._lastErrorMessage = w._lastErrorMessage := by
  unfold afterGetStateName
  split <;> rfl

theorem afterGetSubStateName_lastErrorMessage (D : Decls) (substate : Int) (w : World) :
    (afterGetSubStateName D substate w)._lastErrorMessage = w._lastErrorMessage := by
  unfold afterGetSubStateName
  split <;> rfl

theorem SetLastErrorMsg_consistent (D : Decls) (msg : String) (w : World)
    (hw : w.Consistent D) : (SetLastErrorMsg msg w).2.Consistent D :=
  ⟨by simpa [SetLastErrorMsg] using hw.states, by simpa [SetLastErrorMsg] using hw.substates⟩

theorem Collaborators.answers_or_raises (env : Collaborators) (D : Decls)
    (ps : PrinterStatus) :
    (∃ jobName sparkState sparkJobState,
      env.Answers D ps jobName sparkState sparkJobState) ∨ env.Raises D ps := by
  rcases h1 : env.GetString D.JOB_NAME_SETTING with a | _
  · rcases h2 : env.GetSparkStatus ps._state ps._UISubState ps._canLoadPrintData with b | _
    · rcases h3 : env.GetSparkJobStatus ps._state ps._UISubState
          (decide (ps._numLayers > 0)) with c | _
      · exact Or.inl ⟨a, b, c, h1, h2, h3⟩
      · exact Or.inr (Or.inr (Or.inr h3))
    · exact Or.inr (Or.inr (Or.inl h2))
  · exact Or.inr (Or.inl h1)

theorem Collaborators.Answers.not_raises {env : Collaborators} {D : Decls}
    {ps : PrinterStatus} {jobName sparkState sparkJobState : String}
    (hR : env.Answers D ps jobName sparkState sparkJobState) : ¬ env.Raises D ps := by
  rintro (h | h | h)
  · rw [hR.jobName] at h
    exact Reply.noConfusion h
  · rw [hR.sparkState] at h
    exact Reply.noConfusion h
  · rw [hR.sparkJobState] at h
    exact Reply.noConfusion h

theorem buildDocument_eq (D : Decls) (hD : D.WellFormed) (env : Collaborators)
    (ps : PrinterStatus) (w : World) (hw : w.Consistent D)
    (jobName sparkState sparkJobState : String)
    (hR : env.Answers D ps jobName sparkState sparkJobState) :
    buildDocument D env ps templateDocument w =
      (Outcome.ok (filledDocument D ps (stateNameOf D ps._state)
        (substateNameOf D ps._UISubState) w._lastErrorMessage jobName sparkState
        sparkJobState), afterRender D ps w) := by
  rw [buildDocument_template, GetStateName_ok D hD.states _ w hw]
  simp only
  rw [GetSubStateName_ok D hD.substates _ _ (afterGetStateName_consistent D _ w hw)]
  simp only [hR.jobName, hR.sparkState, hR.sparkJobState]
  have hm : (afterGetSubStateName D ps._UISubState
      (afterGetStateName D ps._state w))._lastErrorMessage = w._lastErrorMessage := by
    rw [afterGetSubStateName_lastErrorMessage, afterGetStateName_lastErrorMessage]
  show (Outcome.ok (filledDocument D ps _ _ (afterGetSubStateName D ps._UISubState
      (afterGetStateName D ps._state w))._lastErrorMessage _ _ _), afterRender D ps w) = _
  rw [hm]

theorem buildDocument_raise (D : Decls) (hD : D.WellFormed) (env : Collaborators)
    (ps : PrinterStatus) (w : World) (hw : w.Consistent D) (hR : env.Raises D ps) :
    buildDocument D env ps templateDocument w = (Outcome.thrown, afterRender D ps w) := by
  rw [buildDocument_template, GetStateName_ok D hD.states _ w hw]
  simp only
  rw [GetSubStateName_ok D hD.substates _ _ (afterGetStateName_consistent D _ w hw)]
  simp only
  unfold Collaborators.Raises at hR
  rcases h1 : env.GetString D.JOB_NAME_SETTING with a | _ <;>
    rcases h2 : env.GetSparkStatus ps._state ps._UISubState ps._canLoadPrintData
      with b | _ <;>
    rcases h3 : env.GetSparkJobStatus ps._state ps._UISubState
      (decide (ps._numLayers > 0)) with c | _ <;>
    first
      | rfl
      | (exfalso
         rw [h1, h2, h3] at hR
         simp at hR)

theorem ToStringDocument_eq (D : Decls) (hD : D.WellFormed) (env : Collaborators)
    (ps : PrinterStatus) (w : World) (hw : w.Consistent D)
    (jobName sparkState sparkJobState : String)
    (hR : env.Answers D ps jobName sparkState sparkJobState) :
    ToStringDocument D env ps w =
      (Outcome.ok (some (filledDocument D ps (stateNameOf D ps._state)
          (substateNameOf D ps._UISubState) w._lastErrorMessage jobName sparkState
          sparkJobState),
        env.Accept (filledDocument D ps (stateNameOf D ps._state)
          (substateNameOf D ps._UISubState) w._lastErrorMessage jobName sparkState
          sparkJobState) ++ "\n"),
        afterRender D ps w) := by
  simp only [ToStringDocument, renderCatching, renderFrom, bind, Exec.bind,
    buildDocument_eq D hD env ps w hw jobName sparkState sparkJobState hR]

theorem ToString_eq (D : Decls) (hD : D.WellFormed) (env : Collaborators)
    (ps : PrinterStatus) (w : World) (hw : w.Consistent D)
    (jobName sparkState sparkJobState : String)
    (hR : env.Answers D ps jobName sparkState sparkJobState) :
    ToString D env ps w =
      (Outcome.ok (env.Accept (filledDocument D ps (stateNameOf D ps._state)
          (substateNameOf D ps._UISubState) w._lastErrorMessage jobName sparkState
          sparkJobState) ++ "\n"),
        afterRender D ps w) := by
  simp only [ToString,
    ToStringDocument_eq D hD env ps w hw jobName sparkState sparkJobState hR]

theorem renderFrom_raise (D : Decls) (hD : D.WellFormed) (env : Collaborators)
    (ps : PrinterStatus) (w : World) (hw : w.Consistent D) (hR : env.Raises D ps) :
    renderFrom D env ps templateDocument w = (Outcome.thrown, afterRender D ps w) := by
  simp only [renderFrom, bind, Exec.bind, buildDocument_raise D hD env ps w hw hR]

theorem ToStringDocument_raise (D : Decls) (hD : D.WellFormed) (env : Collaborators)
    (ps : PrinterStatus) (w : World) (hw : w.Consistent D) (hR : env.Raises D ps) :
    ToStringDocument D env ps w =
      (Outcome.ok (none, ""),
        Logger.HandleError (LogEntry.reportCode D.PrinterStatusToString)
          (afterRender D ps w)) := by
  simp only [ToStringDocument, renderCatching, renderFrom_raise D hD env ps w hw hR]

theorem ToString_raise (D : Decls) (hD : D.WellFormed) (env : Collaborators)
    (ps : PrinterStatus) (w : World) (hw : w.Consistent D) (hR : env.Raises D ps) :
    ToString D env ps w =
      (Outcome.ok "",
        Logger.HandleError (LogEntry.reportCode D.PrinterStatusToString)
          (afterRender D ps w)) := by
  simp only [ToString, ToStringDocument_raise D hD env ps w hw hR]

theorem ToStringDocument_cases (D : Decls) (env : Collaborators) (ps : PrinterStatus)
    (w : World) :
    (∃ sn un msg jobName sparkState sparkJobState w1, ToStringDocument D env ps w =
      (Outcome.ok (some (filledDocument D ps sn un msg jobName sparkState sparkJobState),
        env.Accept (filledDocument D ps sn un msg jobName sparkState sparkJobState) ++ "\n"),
        w1)) ∨
    (∃ w1, ToStringDocument D env ps w = (Outcome.ok (none, ""), w1)) ∨
    (∃ w1, ToStringDocument D env ps w = (Outcome.undefined, w1)) := by
  simp only [ToStringDocument, renderCatching, renderFrom, bind, Exec.bind,
    buildDocument_template]
  generalize GetStateName D ps._state w = r1
  obtain ⟨o1, w1⟩ := r1
  rcases o1 with (_ | sn) | _ | _
  · exact Or.inr (Or.inr ⟨_, rfl⟩)
  · simp only
    generalize GetSubStateName D ps._UISubState w1 = r2
    obtain ⟨o2, w2⟩ := r2
    rcases o2 with (_ | un) | _ | _
    · exact Or.inr (Or.inr ⟨_, rfl⟩)
    · simp only
      generalize env.GetString D.JOB_NAME_SETTING = a1
      generalize env.GetSparkStatus ps._state ps._UISubState ps._canLoadPrintData = a2
      generalize
        env.GetSparkJobStatus ps._state ps._UISubState (decide (ps._numLayers > 0)) = a3
      rcases a1 with jobName | _ <;> rcases a2 with sparkState | _ <;>
        rcases a3 with sparkJobState | _ <;>
        first
          | exact Or.inl ⟨sn, un, _, jobName, sparkState, sparkJobState, _, rfl⟩
          | exact Or.inr (Or.inl ⟨_, rfl⟩)
    · exact Or.inr (Or.inl ⟨_, rfl⟩)
    · exact Or.inr (Or.inr ⟨_, rfl⟩)
  · exact Or.inr (Or.inl ⟨_, rfl⟩)
  · exact Or.inr (Or.inr ⟨_, rfl⟩)

theorem filledDocument_keys (D : Decls) (ps : PrinterStatus)
    (sn un msg jobName sparkState sparkJobState : String) :
    (filledDocument D ps sn un msg jobName sparkState sparkJobState).keys =
      ["State", "UISubState", "Change", "IsError", "ErrorCode", "Errno", "ErrorMessage",
        "JobName", "JobID", "Layer", "TotalLayers", "SecondsLeft", "Temperature",
        "PrintRating", "SparkState", "SparkJobState", "LocalJobID", "CanLoad",
        "CanUpgradeProjector"] := rfl

theorem filledDocument_types (D : Decls) (ps : PrinterStatus)
    (sn un msg jobName sparkState sparkJobState : String) :
    (filledDocument D ps sn un msg jobName sparkState sparkJobState).map
      (fun m => m.2.type) = statusTypes := by
  simp only [filledDocument, statusTypes, List.map_cons, List.map_nil]
  split_ifs <;> rfl

theorem sampleCollaborators_answers_printing :
    sampleCollaborators.Answers sampleDecls samplePrintingStatus "part.tar.gz" "ready"
      "printing" :=
  ⟨rfl, rfl, rfl⟩

theorem sampleCollaborators_answers_error :
    sampleCollaborators.Answers sampleDecls sampleErrorStatus "part.tar.gz" "ready"
      "received" :=
  ⟨rfl, rfl, rfl⟩

theorem sampleCollaborators_answers_new :
    sampleCollaborators.Answers sampleDecls (PrinterStatus.new sampleDecls "id")
      "part.tar.gz" "ready" "received" :=
  ⟨rfl, rfl, rfl⟩

/-- C7. Whenever `ToString` returns a non-empty text, that text is the
writer's output, followed by a newline, for a document that has exactly the
nineteen keys of the template, in its order and each once, and whose values
have the types of the table of section 6, whatever the snapshot holds. In
particular `CanLoad` holds the boolean `_canLoadPrintData`, although the
template seeds it with a string. -/
theorem ToString_document_shape (D : Decls) (env : Collaborators) (ps : PrinterStatus)
    (w w1 : World) (text : String)
    (h : ToString D env ps w = (Outcome.ok text, w1)) (hne : text ≠ "") :
    ∃ doc, ToStringDocument D env ps w = (Outcome.ok (some doc, text), w1) ∧
      text = env.Accept doc ++ "\n" ∧
      doc.keys =
        ["State", "UISubState", "Change", "IsError", "ErrorCode", "Errno", "ErrorMessage",
          "JobName", "JobID", "Layer", "TotalLayers", "SecondsLeft", "Temperature",
          "PrintRating", "SparkState", "SparkJobState", "LocalJobID", "CanLoad",
          "CanUpgradeProjector"] ∧
      doc.keys.Nodup ∧
      doc.map (fun m => m.2.type) = statusTypes ∧
      doc.get "CanLoad" = some (Value.bool ps._canLoadPrintData) ∧
      templateDocument.get "CanLoad" = some (Value.string "") := by
  rcases ToStringDocument_cases D env ps w with
    ⟨sn, un, msg, jobName, sparkState, sparkJobState, w2, hdoc⟩ | ⟨w2, hdoc⟩ | ⟨w2, hdoc⟩
  · simp only [ToString, hdoc, Prod.mk.injEq, Outcome.ok.injEq] at h
    obtain ⟨ht, hw⟩ := h
    subst ht hw
    refine ⟨_, hdoc, rfl, filledDocument_keys D ps sn un msg _ _ _, ?_,
      filledDocument_types D ps sn un msg _ _ _, rfl, rfl⟩
    rw [filledDocument_keys]
    decide
  · simp only [ToString, hdoc, Prod.mk.injEq, Outcome.ok.injEq] at h
    exact absurd h.1.symm hne
  · simp only [ToString, hdoc, Prod.mk.injEq] at h
    exact absurd h.1 (by simp)

theorem sample_ToString :
    ToString sampleDecls sampleCollaborators samplePrintingStatus World.initial =
      (Outcome.ok ("State,UISubState,Change,IsError,ErrorCode,Errno,ErrorMessage,JobName," ++
        "JobID,Layer,TotalLayers,SecondsLeft,Temperature,PrintRating,SparkState," ++
        "SparkJobState,LocalJobID,CanLoad,CanUpgradeProjector\n"),
        afterRender sampleDecls samplePrintingStatus World.initial) := by
  rw [ToString_eq sampleDecls sampleDecls_wellFormed _ _ _ (World.initial_consistent _)
    _ _ _ sampleCollaborators_answers_printing]
  rfl

/-- Witness of C7: the snapshot of layer 5 of 20 rendered in the initial
world of the sample header. -/
theorem ToString_document_shape_witness :
    ToString sampleDecls sampleCollaborators samplePrintingStatus World.initial =
      (Outcome.ok ("State,UISubState,Change,IsError,ErrorCode,Errno,ErrorMessage,JobName," ++
        "JobID,Layer,TotalLayers,SecondsLeft,Temperature,PrintRating,SparkState," ++
        "SparkJobState,LocalJobID,CanLoad,CanUpgradeProjector\n"),
        afterRender sampleDecls samplePrintingStatus World.initial) ∧
    ("State,UISubState,Change,IsError,ErrorCode,Errno,ErrorMessage,JobName," ++
        "JobID,Layer,TotalLayers,SecondsLeft,Temperature,PrintRating,SparkState," ++
        "SparkJobState,LocalJobID,CanLoad,CanUpgradeProjector\n") ≠ "" ∧
    ∃ doc, ToStringDocument sampleDecls sampleCollaborators samplePrintingStatus World.initial =
        (Outcome.ok (some doc,
          "State,UISubState,Change,IsError,ErrorCode,Errno,ErrorMessage,JobName," ++
          "JobID,Layer,TotalLayers,SecondsLeft,Temperature,PrintRating,SparkState," ++
          "SparkJobState,LocalJobID,CanLoad,CanUpgradeProjector\n"),
          afterRender sampleDecls samplePrintingStatus World.initial) ∧
      ("State,UISubState,Change,IsError,ErrorCode,Errno,ErrorMessage,JobName," ++
          "JobID,Layer,TotalLayers,SecondsLeft,Temperature,PrintRating,SparkState," ++
          "SparkJobState,LocalJobID,CanLoad,CanUpgradeProjector\n") =
        sampleCollaborators.Accept doc ++ "\n" ∧
      doc.keys =
        ["State", "UISubState", "Change", "IsError", "ErrorCode", "Errno", "ErrorMessage",
          "JobName", "JobID", "Layer", "TotalLayers", "SecondsLeft", "Temperature",
          "PrintRating", "SparkState", "SparkJobState", "LocalJobID", "CanLoad",
          "CanUpgradeProjector"] ∧
      doc.keys.Nodup ∧
      doc.map (fun m => m.2.type) = statusTypes ∧
      doc.get "CanLoad" = some (Value.bool samplePrintingStatus._canLoadPrintData) ∧
      templateDocument.get "CanLoad" = some (Value.string "") :=
  ⟨sample_ToString, by decide,
    ToString_document_shape sampleDecls sampleCollaborators samplePrintingStatus
      World.initial _ _ sample_ToString (by decide)⟩

/-- C8. In every world the program can be in, `ToString` renders a document
for every snapshot when the collaborator calls return, and its error fields
are the snapshot's own: `IsError` is `_isError`, `ErrorCode` is
`_errorCode`, `Errno` is `_errno`, and `ErrorMessage` is the message stored
in the error channel at the call. -/
theorem ToString_error_fields (D : Decls) (hD : D.WellFormed) (env : Collaborators)
    (ps : PrinterStatus) (w : World) (hw : w.Consistent D)
    (jobName sparkState sparkJobState : String)
    (hR : env.Answers D ps jobName sparkState sparkJobState) :
    ∃ doc w1, ToStringDocument D env ps w = (Outcome.ok (some doc, env.Accept doc ++ "\n"), w1) ∧
      ToString D env ps w = (Outcome.ok (env.Accept doc ++ "\n"), w1) ∧
      doc.get "IsError" = some (Value.bool ps._isError) ∧
      doc.get "ErrorCode" = some (Value.int ps._errorCode) ∧
      doc.get "Errno" = some (Value.int ps._errno) ∧
      doc.get "ErrorMessage" = some (Value.string w._lastErrorMessage) ∧
      GetLastErrorMessage w = (Outcome.ok w._lastErrorMessage,
        { w with lastErrorReads := w.lastErrorReads + 1 }) :=
  ⟨_, _, ToStringDocument_eq D hD env ps w hw _ _ _ hR, ToString_eq D hD env ps w hw _ _ _ hR,
    rfl, rfl, rfl, rfl, rfl⟩

/-- Witness of C8: a snapshot in `ErrorState` with `_isError = true`, error
code 42 and native code 110, rendered after `SetLastErrorMsg("Motor timeout")`. -/
theorem ToString_error_fields_witness :
    sampleDecls.WellFormed ∧
    (SetLastErrorMsg "Motor timeout" World.initial).2.Consistent sampleDecls ∧
    sampleCollaborators.Answers sampleDecls sampleErrorStatus "part.tar.gz" "ready"
      "received" ∧
    ∃ doc w1,
      ToStringDocument sampleDecls sampleCollaborators sampleErrorStatus
          (SetLastErrorMsg "Motor timeout" World.initial).2 =
        (Outcome.ok (some doc, sampleCollaborators.Accept doc ++ "\n"), w1) ∧
      ToString sampleDecls sampleCollaborators sampleErrorStatus
          (SetLastErrorMsg "Motor timeout" World.initial).2 =
        (Outcome.ok (sampleCollaborators.Accept doc ++ "\n"), w1) ∧
      doc.get "IsError" = some (Value.bool true) ∧
      doc.get "ErrorCode" = some (Value.int 42) ∧
      doc.get "Errno" = some (Value.int 110) ∧
      doc.get "ErrorMessage" = some (Value.string "Motor timeout") ∧
      GetLastErrorMessage (SetLastErrorMsg "Motor timeout" World.initial).2 =
        (Outcome.ok "Motor timeout",
          { (SetLastErrorMsg "Motor timeout" World.initial).2 with
            lastErrorReads := (SetLastErrorMsg "Motor timeout" World.initial).2.lastErrorReads + 1 }) :=
  ⟨sampleDecls_wellFormed,
    SetLastErrorMsg_consistent sampleDecls _ _ (World.initial_consistent sampleDecls),
    sampleCollaborators_answers_error,
    ToString_error_fields sampleDecls sampleDecls_wellFormed sampleCollaborators
      sampleErrorStatus _
      (SetLastErrorMsg_consistent sampleDecls _ _ (World.initial_consistent sampleDecls))
      _ _ _ sampleCollaborators_answers_error⟩

/-- C9. In every world the program can be in, `ToString` renders a document
for every snapshot when the collaborator calls return, with `Layer` =
`_currentLayer`, `TotalLayers` = `_numLayers`, `SecondsLeft` =
`_estimatedSecondsRemaining`, `Temperature` = `_temperature`, `JobID` =
`_jobID`, `LocalJobID` = `_localJobUniqueID`, `CanLoad` =
`_canLoadPrintData` and `CanUpgradeProjector` = `_canUpgradeProjector`. -/
theorem ToString_progress_fields (D : Decls) (hD : D.WellFormed) (env : Collaborators)
    (ps : PrinterStatus) (w : World) (hw : w.Consistent D)
    (jobName sparkState sparkJobState : String)
    (hR : env.Answers D ps jobName sparkState sparkJobState) :
    ∃ doc w1, ToStringDocument D env ps w = (Outcome.ok (some doc, env.Accept doc ++ "\n"), w1) ∧
      ToString D env ps w = (Outcome.ok (env.Accept doc ++ "\n"), w1) ∧
      doc.get "Layer" = some (Value.int ps._currentLayer) ∧
      doc.get "TotalLayers" = some (Value.int ps._numLayers) ∧
      doc.get "SecondsLeft" = some (Value.int ps._estimatedSecondsRemaining) ∧
      doc.get "Temperature" = some (Value.double ps._temperature) ∧
      doc.get "JobID" = some (Value.string ps._jobID) ∧
      doc.get "LocalJobID" = some (Value.string ps._localJobUniqueID) ∧
      doc.get "CanLoad" = some (Value.bool ps._canLoadPrintData) ∧
      doc.get "CanUpgradeProjector" = some (Value.bool ps._canUpgradeProjector) :=
  ⟨_, _, ToStringDocument_eq D hD env ps w hw _ _ _ hR, ToString_eq D hD env ps w hw _ _ _ hR,
    rfl, rfl, rfl, rfl, rfl, rfl, rfl, rfl⟩

/-- Witness of C9: the snapshot with `_currentLayer = 5` and
`_numLayers = 20` renders `Layer = 5` and `TotalLayers = 20`. -/
theorem ToString_progress_fields_witness :
    sampleDecls.WellFormed ∧ World.initial.Consistent sampleDecls ∧
    sampleCollaborators.Answers sampleDecls samplePrintingStatus "part.tar.gz" "ready"
      "printing" ∧
    ∃ doc w1,
      ToStringDocument sampleDecls sampleCollaborators samplePrintingStatus World.initial =
        (Outcome.ok (some doc, sampleCollaborators.Accept doc ++ "\n"), w1) ∧
      ToString sampleDecls sampleCollaborators samplePrintingStatus World.initial =
        (Outcome.ok (sampleCollaborators.Accept doc ++ "\n"), w1) ∧
      doc.get "Layer" = some (Value.int 5) ∧
      doc.get "TotalLayers" = some (Value.int 20) ∧
      doc.get "SecondsLeft" = some (Value.int 0) ∧
      doc.get "Temperature" = some (Value.double Double.zero) ∧
      doc.get "JobID" = some (Value.string "") ∧
      doc.get "LocalJobID" = some (Value.string "0f8fad5b-d9cb-469f-a165-70867728950e") ∧
      doc.get "CanLoad" = some (Value.bool false) ∧
      doc.get "CanUpgradeProjector" = some (Value.bool false) :=
  ⟨sampleDecls_wellFormed, World.initial_consistent sampleDecls,
    sampleCollaborators_answers_printing,
    ToString_progress_fields sampleDecls sampleDecls_wellFormed sampleCollaborators
      samplePrintingStatus World.initial (World.initial_consistent sampleDecls)
      _ _ _ sampleCollaborators_answers_printing⟩

/-- C10. In every world the program can be in, `ToString` renders a
document for every snapshot when the collaborator calls return, with
`SparkState` the text the translator's printer status returns for
`(_state, _UISubState, _canLoadPrintData)` and `SparkJobState` the text its
job status returns for `(_state, _UISubState, b)`, where `b` is true exactly
when `_numLayers > 0`. -/
theorem ToString_spark_fields (D : Decls) (hD : D.WellFormed) (env : Collaborators)
    (ps : PrinterStatus) (w : World) (hw : w.Consistent D)
    (jobName sparkState sparkJobState : String)
    (hR : env.Answers D ps jobName sparkState sparkJobState) :
    ∃ doc w1 b, ToStringDocument D env ps w =
        (Outcome.ok (some doc, env.Accept doc ++ "\n"), w1) ∧
      ToString D env ps w = (Outcome.ok (env.Accept doc ++ "\n"), w1) ∧
      (b = true ↔ ps._numLayers > 0) ∧
      env.GetSparkStatus ps._state ps._UISubState ps._canLoadPrintData =
        Reply.returned sparkState ∧
      doc.get "SparkState" = some (Value.string sparkState) ∧
      env.GetSparkJobStatus ps._state ps._UISubState b = Reply.returned sparkJobState ∧
      doc.get "SparkJobState" = some (Value.string sparkJobState) :=
  ⟨_, _, decide (ps._numLayers > 0), ToStringDocument_eq D hD env ps w hw _ _ _ hR,
    ToString_eq D hD env ps w hw _ _ _ hR, by simp, hR.sparkState, rfl, hR.sparkJobState, rfl⟩

/-- Witness of C10: with `_state = PrintingLayerState` and `_numLayers = 20`
the job status is the one the sample translator gives for a printing job. -/
theorem ToString_spark_fields_witness :
    sampleDecls.WellFormed ∧ World.initial.Consistent sampleDecls ∧
    sampleCollaborators.Answers sampleDecls samplePrintingStatus "part.tar.gz" "ready"
      "printing" ∧
    ∃ doc w1 b,
      ToStringDocument sampleDecls sampleCollaborators samplePrintingStatus World.initial =
        (Outcome.ok (some doc, sampleCollaborators.Accept doc ++ "\n"), w1) ∧
      ToString sampleDecls sampleCollaborators samplePrintingStatus World.initial =
        (Outcome.ok (sampleCollaborators.Accept doc ++ "\n"), w1) ∧
      (b = true ↔ samplePrintingStatus._numLayers > 0) ∧
      sampleCollaborators.GetSparkStatus samplePrintingStatus._state
          samplePrintingStatus._UISubState samplePrintingStatus._canLoadPrintData =
        Reply.returned "ready" ∧
      doc.get "SparkState" = some (Value.string "ready") ∧
      sampleCollaborators.GetSparkJobStatus samplePrintingStatus._state
          samplePrintingStatus._UISubState b = Reply.returned "printing" ∧
      doc.get "SparkJobState" = some (Value.string "printing") :=
  ⟨sampleDecls_wellFormed, World.initial_consistent sampleDecls,
    sampleCollaborators_answers_printing,
    ToString_spark_fields sampleDecls sampleDecls_wellFormed sampleCollaborators
      samplePrintingStatus World.initial (World.initial_consistent sampleDecls)
      _ _ _ sampleCollaborators_answers_printing⟩

/-! ## Framing of the renderer -/

theorem World.Frame.refl (D : Decls) (w : World) : World.Frame D w w := ⟨rfl, rfl⟩

theorem World.Frame.trans {D : Decls} {w w1 w2 : World} (h1 : World.Frame D w w1)
    (h2 : World.Frame D w1 w2) : World.Frame D w w2 :=
  ⟨h2.1.trans h1.1, h2.2.trans h1.2⟩

theorem Exec.framed_bind {α β : Type} (D : Decls) (m : Exec α) (f : α → Exec β)
    (hm : Exec.Framed D m) (hf : ∀ a, Exec.Framed D (f a)) :
    Exec.Framed D (m >>= f) := by
  intro w
  have h1 := hm w
  show World.Frame D w (Exec.bind m f w).2
  unfold Exec.bind
  rcases hmw : m w with ⟨o, w1⟩
  rw [hmw] at h1
  cases o with
  | ok a => exact h1.trans (hf a w1)
  | thrown => exact h1
  | undefined => exact h1

theorem Exec.framed_lift {α : Type} (D : Decls) (o : Outcome α) :
    Exec.Framed D (Exec.lift o) :=
  fun w => World.Frame.refl D w

theorem Exec.framed_pure {α : Type} (D : Decls) (a : α) :
    Exec.Framed D (pure a : Exec α) :=
  fun w => World.Frame.refl D w

theorem cString_framed (D : Decls) (p : Option String) : Exec.Framed D (cString p) := by
  cases p with
  | none => exact Exec.framed_lift D _
  | some s => exact Exec.framed_lift D _

theorem GetLastErrorMessage_framed (D : Decls) : Exec.Framed D GetLastErrorMessage :=
  fun _ => ⟨rfl, rfl⟩

theorem serializationErrors_report (D : Decls) (log : List LogEntry) (code : Int)
    (fatal : Bool) (str : Option String) (value : Int)
    (h : code ≠ D.PrinterStatusToString) :
    serializationErrors D (log ++ [LogEntry.report code fatal str value]) =
      serializationErrors D log := by
  simp [serializationErrors, List.countP_append, LogEntry.code, h]

theorem serializationErrors_reportCode (D : Decls) (log : List LogEntry) :
    serializationErrors D (log ++ [LogEntry.reportCode D.PrinterStatusToString]) =
      serializationErrors D log + 1 := by
  simp [serializationErrors, List.countP_append, LogEntry.code]

theorem GetStateName_framed (D : Decls) (hE : D.ErrorCodesDistinct) (state : Int) :
    Exec.Framed D (GetStateName D state) := by
  intro w
  unfold GetStateName
  cases hi : w.stateNamesInitialized with
  | true =>
    simp only [Bool.not_true, Bool.false_eq_true, if_false]
    split
    · exact ⟨rfl, serializationErrors_report D _ _ _ _ _ hE.1⟩
    · exact ⟨rfl, rfl⟩
  | false =>
    simp only [Bool.not_false, if_true]
    cases storeAll D.MaxPrintEngineState (stateNameAssignments D) w.stateNames with
    | none => exact ⟨rfl, rfl⟩
    | some t =>
      simp only [Option.map_some']
      split
      · exact ⟨rfl, serializationErrors_report D _ _ _ _ _ hE.1⟩
      · exact ⟨rfl, rfl⟩

theorem GetSubStateName_framed (D : Decls) (hE : D.ErrorCodesDistinct) (substate : Int) :
    Exec.Framed D (GetSubStateName D substate) := by
  intro w
  unfold GetSubStateName
  cases hi : w.substateNamesInitialized with
  | true =>
    simp only [Bool.not_true, Bool.false_eq_true, if_false]
    split
    · exact ⟨rfl, serializationErrors_report D _ _ _ _ _ hE.2⟩
    · exact ⟨rfl, rfl⟩
  | false =>
    simp only [Bool.not_false, if_true]
    cases storeAll D.MaxUISubState (substateNameAssignments D) w.substateNames with
    | none => exact ⟨rfl, rfl⟩
    | some t =>
      simp only [Option.map_some']
      split
      · exact ⟨rfl, serializationErrors_report D _ _ _ _ _ hE.2⟩
      · exact ⟨rfl, rfl⟩

theorem buildDocument_framed (D : Decls) (hE : D.ErrorCodesDistinct) (env : Collaborators)
    (ps : PrinterStatus) (parsed : Document) :
    Exec.Framed D (buildDocument D env ps parsed) := by
  unfold buildDocument
  repeat first
    | exact Exec.framed_pure D _
    | exact Exec.framed_lift D _
    | exact GetStateName_framed D hE _
    | exact GetSubStateName_framed D hE _
    | exact GetLastErrorMessage_framed D
    | exact cString_framed D _
    | apply Exec.framed_bind D
    | intro _

theorem renderFrom_framed (D : Decls) (hE : D.ErrorCodesDistinct) (env : Collaborators)
    (ps : PrinterStatus) (parsed : Document) :
    Exec.Framed D (renderFrom D env ps parsed) := by
  unfold renderFrom
  apply Exec.framed_bind D _ _ (buildDocument_framed D hE env ps parsed)
  intro doc
  exact Exec.framed_pure D _

/-! ## Failure policy of the renderer -/

theorem append_newline_ne_empty (s : String) : s ++ "\n" ≠ "" := by
  intro h
  have hl := congrArg String.length h
  rw [String.length_append] at hl
  have h1 : "\n".length = 1 := by decide
  have h0 : "".length = 0 := by decide
  omega

theorem renderFrom_eq (D : Decls) (hD : D.WellFormed) (env : Collaborators)
    (ps : PrinterStatus) (w : World) (hw : w.Consistent D)
    (jobName sparkState sparkJobState : String)
    (hR : env.Answers D ps jobName sparkState sparkJobState) :
    renderFrom D env ps templateDocument w =
      (Outcome.ok (filledDocument D ps (stateNameOf D ps._state)
          (substateNameOf D ps._UISubState) w._lastErrorMessage jobName sparkState
          sparkJobState,
        env.Accept (filledDocument D ps (stateNameOf D ps._state)
          (substateNameOf D ps._UISubState) w._lastErrorMessage jobName sparkState
          sparkJobState) ++ "\n"),
        afterRender D ps w) := by
  simp only [renderFrom, bind, Exec.bind,
    buildDocument_eq D hD env ps w hw jobName sparkState sparkJobState hR]
  rfl

theorem sampleDecls_errorCodesDistinct : sampleDecls.ErrorCodesDistinct := by
  constructor <;> decide

theorem raisingCollaborators_raises (ps : PrinterStatus) :
    raisingCollaborators.Raises sampleDecls ps :=
  Or.inl rfl

/-! ## The world after a render -/

theorem afterRender_errorLog (D : Decls) (ps : PrinterStatus) (w : World) :
    (afterRender D ps w).errorLog = w.errorLog ++ lookupReports D ps := by
  simp only [afterRender, afterGetSubStateName, afterGetStateName, lookupReports]
  split <;> split <;>
    simp [Logger.HandleError, World.withStateNames, World.withSubstateNames]

theorem afterRender_lastErrorMessage (D : Decls) (ps : PrinterStatus) (w : World) :
    (afterRender D ps w)._lastErrorMessage = w._lastErrorMessage := by
  show (afterGetSubStateName D ps._UISubState
    (afterGetStateName D ps._state w))._lastErrorMessage = _
  rw [afterGetSubStateName_lastErrorMessage, afterGetStateName_lastErrorMessage]

theorem afterRender_lastErrorReads (D : Decls) (ps : PrinterStatus) (w : World) :
    (afterRender D ps w).lastErrorReads = w.lastErrorReads + 2 := by
  simp only [afterRender, afterGetSubStateName, afterGetStateName]
  split <;> split <;>
    simp [Logger.HandleError, World.withStateNames, World.withSubstateNames]

theorem afterRender_consistent (D : Decls) (ps : PrinterStatus) (w : World)
    (hw : w.Consistent D) : (afterRender D ps w).Consistent D := by
  have h := afterGetSubStateName_consistent D ps._UISubState _
    (afterGetStateName_consistent D ps._state w hw)
  exact ⟨h.states, h.substates⟩

theorem lookupReports_of_valid (D : Decls) (ps : PrinterStatus)
    (hs : D.UndefinedPrintEngineState < ps._state ∧ ps._state < D.MaxPrintEngineState)
    (hu : D.NoUISubState ≤ ps._UISubState ∧ ps._UISubState < D.MaxUISubState) :
    lookupReports D ps = [] := by
  have h1 : ¬ (ps._state ≤ D.UndefinedPrintEngineState ∨ ps._state ≥ D.MaxPrintEngineState) := by
    omega
  have h2 : ¬ (ps._UISubState < D.NoUISubState ∨ ps._UISubState ≥ D.MaxUISubState) := by
    omega
  simp only [lookupReports, if_neg h1, if_neg h2, List.append_nil]

theorem PrinterStatus.new_valid (D : Decls) (hD : D.WellFormed)
    (hA : D.StatesAboveUndefined) (uuid : String) :
    (D.UndefinedPrintEngineState < (PrinterStatus.new D uuid)._state ∧
      (PrinterStatus.new D uuid)._state < D.MaxPrintEngineState) ∧
    (D.NoUISubState ≤ (PrinterStatus.new D uuid)._UISubState ∧
      (PrinterStatus.new D uuid)._UISubState < D.MaxUISubState) := by
  have h1 := hA (D.PrinterOnState, D.PRINTER_ON_STATE) (by simp [stateNameAssignments])
  have h2 := hD.states.inBounds (D.PrinterOnState, D.PRINTER_ON_STATE)
    (by simp [stateNameAssignments])
  have h3 := hD.substates.inBounds (D.NoUISubState, D.NO_SUBSTATE)
    (by simp [substateNameAssignments])
  exact ⟨⟨h1, h2.2⟩, ⟨le_refl _, h3.2⟩⟩

theorem sampleDecls_statesAboveUndefined : sampleDecls.StatesAboveUndefined := by
  intro p hp
  simp only [stateNameAssignments, sampleDecls, List.mem_cons, List.mem_singleton,
    List.not_mem_nil, or_false] at hp
  rcases hp with h | h | h | h | h | h | h | h | h | h | h | h | h | h | h | h | h | h | h
    | h | h | h | h | h | h | h | h | h | h | h | h | h <;> subst h <;> decide

theorem sampleDecls_changeTagsDistinct : sampleDecls.ChangeTagsDistinct := by
  refine ⟨?_, ?_, ?_⟩ <;> decide

/-! ## The failure policy -/

theorem sample_raising_ToString :
    ToString sampleDecls raisingCollaborators samplePrintingStatus World.initial =
      (Outcome.ok "",
        Logger.HandleError (LogEntry.reportCode sampleDecls.PrinterStatusToString)
          (afterRender sampleDecls samplePrintingStatus World.initial)) :=
  ToString_raise sampleDecls sampleDecls_wellFormed raisingCollaborators
    samplePrintingStatus World.initial (World.initial_consistent sampleDecls)
    (raisingCollaborators_raises samplePrintingStatus)

/-- C11. In every world the program can be in, `ToString` returns a text
for every snapshot and whatever the collaborators do: no exception escapes.
The text is empty exactly when a `std::exception` was raised inside the
`try` block, which is exactly when one of the three collaborator calls
raises; then no document is written and the log grows by the lookup reports
and exactly one `PrinterStatusToString` report. Otherwise the text is the
writer's output for the built document followed by a newline, hence
non-empty, and the log grows by the lookup reports only, with no
`PrinterStatusToString` report. -/
theorem ToString_failure_policy (D : Decls) (hD : D.WellFormed)
    (hE : D.ErrorCodesDistinct) (env : Collaborators) (ps : PrinterStatus) (w : World)
    (hw : w.Consistent D) :
    ∃ d text w1,
      ToStringDocument D env ps w = (Outcome.ok (d, text), w1) ∧
      ToString D env ps w = (Outcome.ok text, w1) ∧
      (text = "" ↔ ∃ w0, renderFrom D env ps templateDocument w = (Outcome.thrown, w0)) ∧
      (text = "" ↔ env.Raises D ps) ∧
      (text = "" → d = none ∧
        w1.errorLog = w.errorLog ++ lookupReports D ps ++
          [LogEntry.reportCode D.PrinterStatusToString] ∧
        serializationErrors D w1.errorLog = serializationErrors D w.errorLog + 1) ∧
      (text ≠ "" → ∃ doc, d = some doc ∧ text = env.Accept doc ++ "\n" ∧
        w1.errorLog = w.errorLog ++ lookupReports D ps ∧
        serializationErrors D w1.errorLog = serializationErrors D w.errorLog) := by
  have hframe := renderFrom_framed D hE env ps templateDocument w
  rcases Collaborators.answers_or_raises env D ps with ⟨jobName, sparkState, sparkJobState, hR⟩ | hR
  · have hrender := renderFrom_eq D hD env ps w hw jobName sparkState sparkJobState hR
    rw [hrender] at hframe
    have hne := append_newline_ne_empty
      (env.Accept (filledDocument D ps (stateNameOf D ps._state)
        (substateNameOf D ps._UISubState) w._lastErrorMessage jobName sparkState
        sparkJobState))
    refine ⟨_, _, _, ToStringDocument_eq D hD env ps w hw _ _ _ hR,
      ToString_eq D hD env ps w hw _ _ _ hR, ⟨fun h => absurd h hne, ?_⟩,
      ⟨fun h => absurd h hne, fun h => absurd h hR.not_raises⟩, fun h => absurd h hne,
      fun _ => ⟨_, rfl, rfl, afterRender_errorLog D ps w, hframe.2⟩⟩
    rintro ⟨w0, h0⟩
    rw [hrender] at h0
    simp at h0
  · have hrender := renderFrom_raise D hD env ps w hw hR
    rw [hrender] at hframe
    refine ⟨_, _, _, ToStringDocument_raise D hD env ps w hw hR,
      ToString_raise D hD env ps w hw hR, ⟨fun _ => ⟨_, hrender⟩, fun _ => rfl⟩,
      ⟨fun _ => hR, fun _ => rfl⟩, fun _ => ⟨rfl, ?_, ?_⟩, fun h => absurd rfl h⟩
    · show (afterRender D ps w).errorLog ++ [LogEntry.reportCode D.PrinterStatusToString] = _
      rw [afterRender_errorLog]
    · show serializationErrors D ((afterRender D ps w).errorLog ++
        [LogEntry.reportCode D.PrinterStatusToString]) = _
      rw [serializationErrors_reportCode, hframe.2]

/-- Witness of C11: the snapshot of layer 5 of 20 rendered while the
settings store raises on `GetString`. The result is the empty text, and
the log holds one `PrinterStatusToString` report. -/
theorem ToString_failure_policy_witness :
    sampleDecls.WellFormed ∧ sampleDecls.ErrorCodesDistinct ∧
    World.initial.Consistent sampleDecls ∧
    (ToString sampleDecls raisingCollaborators samplePrintingStatus World.initial).1 =
      Outcome.ok "" ∧
    (ToString sampleDecls raisingCollaborators samplePrintingStatus
      World.initial).2.errorLog = [LogEntry.reportCode 3] ∧
    ∃ d text w1,
      ToStringDocument sampleDecls raisingCollaborators samplePrintingStatus World.initial =
        (Outcome.ok (d, text), w1) ∧
      ToString sampleDecls raisingCollaborators samplePrintingStatus World.initial =
        (Outcome.ok text, w1) ∧
      (text = "" ↔ ∃ w0, renderFrom sampleDecls raisingCollaborators samplePrintingStatus
        templateDocument World.initial = (Outcome.thrown, w0)) ∧
      (text = "" ↔ raisingCollaborators.Raises sampleDecls samplePrintingStatus) ∧
      (text = "" → d = none ∧
        w1.errorLog = World.initial.errorLog ++
          lookupReports sampleDecls samplePrintingStatus ++
          [LogEntry.reportCode sampleDecls.PrinterStatusToString] ∧
        serializationErrors sampleDecls w1.errorLog =
          serializationErrors sampleDecls World.initial.errorLog + 1) ∧
      (text ≠ "" → ∃ doc, d = some doc ∧ text = raisingCollaborators.Accept doc ++ "\n" ∧
        w1.errorLog = World.initial.errorLog ++
          lookupReports sampleDecls samplePrintingStatus ∧
        serializationErrors sampleDecls w1.errorLog =
          serializationErrors sampleDecls World.initial.errorLog) :=
  ⟨sampleDecls_wellFormed, sampleDecls_errorCodesDistinct,
    World.initial_consistent sampleDecls,
    by rw [sample_raising_ToString],
    by rw [sample_raising_ToString]; rfl,
    ToString_failure_policy sampleDecls sampleDecls_wellFormed
      sampleDecls_errorCodesDistinct raisingCollaborators samplePrintingStatus
      World.initial (World.initial_consistent sampleDecls)⟩

/-! ## Rendering valid snapshots -/

/-- C12. For a snapshot whose state lies strictly between `Undefined` and
`Max` and whose substate lies in `[NoUISubState, MaxUISubState)`, and for
the snapshot the constructor builds, `ToString` returns a non-empty text
when the collaborator calls return, the written document has as `State` and
`UISubState` the names that `GetStateName` and `GetSubStateName` return for
the snapshot's ids, and nothing is added to the error log. -/
theorem ToString_valid_pair (D : Decls) (hD : D.WellFormed) (hA : D.StatesAboveUndefined)
    (env : Collaborators) (ps : PrinterStatus) (w : World) (hw : w.Consistent D)
    (jobName sparkState sparkJobState : String)
    (hR : env.Answers D ps jobName sparkState sparkJobState)
    (hps : ((D.UndefinedPrintEngineState < ps._state ∧ ps._state < D.MaxPrintEngineState) ∧
        (D.NoUISubState ≤ ps._UISubState ∧ ps._UISubState < D.MaxUISubState)) ∨
      ∃ uuid, ps = PrinterStatus.new D uuid) :
    ∃ doc w1 sn un,
      ToStringDocument D env ps w = (Outcome.ok (some doc, env.Accept doc ++ "\n"), w1) ∧
      ToString D env ps w = (Outcome.ok (env.Accept doc ++ "\n"), w1) ∧
      env.Accept doc ++ "\n" ≠ "" ∧
      (GetStateName D ps._state w).1 = Outcome.ok (some sn) ∧
      doc.get "State" = some (Value.string sn) ∧
      (GetSubStateName D ps._UISubState w).1 = Outcome.ok (some un) ∧
      doc.get "UISubState" = some (Value.string un) ∧
      w1.errorLog = w.errorLog := by
  have hv : (D.UndefinedPrintEngineState < ps._state ∧ ps._state < D.MaxPrintEngineState) ∧
      (D.NoUISubState ≤ ps._UISubState ∧ ps._UISubState < D.MaxUISubState) := by
    rcases hps with h | ⟨uuid, rfl⟩
    · exact h
    · exact PrinterStatus.new_valid D hD hA uuid
  refine ⟨_, _, stateNameOf D ps._state, substateNameOf D ps._UISubState,
    ToStringDocument_eq D hD env ps w hw _ _ _ hR, ToString_eq D hD env ps w hw _ _ _ hR,
    append_newline_ne_empty _, ?_, rfl, ?_, rfl, ?_⟩
  · rw [GetStateName_ok D hD.states _ w hw]
  · rw [GetSubStateName_ok D hD.substates _ w hw]
  · rw [afterRender_errorLog, lookupReports_of_valid D ps hv.1 hv.2, List.append_nil]

/-- Witness of C12: the snapshot the constructor builds, rendered in the
initial world of the sample header. -/
theorem ToString_valid_pair_witness :
    sampleDecls.WellFormed ∧ sampleDecls.StatesAboveUndefined ∧
    World.initial.Consistent sampleDecls ∧
    sampleCollaborators.Answers sampleDecls (PrinterStatus.new sampleDecls "id")
      "part.tar.gz" "ready" "received" ∧
    (((sampleDecls.UndefinedPrintEngineState < (PrinterStatus.new sampleDecls "id")._state ∧
        (PrinterStatus.new sampleDecls "id")._state < sampleDecls.MaxPrintEngineState) ∧
        (sampleDecls.NoUISubState ≤ (PrinterStatus.new sampleDecls "id")._UISubState ∧
          (PrinterStatus.new sampleDecls "id")._UISubState < sampleDecls.MaxUISubState)) ∨
      ∃ uuid, PrinterStatus.new sampleDecls "id" = PrinterStatus.new sampleDecls uuid) ∧
    ∃ doc w1 sn un,
      ToStringDocument sampleDecls sampleCollaborators (PrinterStatus.new sampleDecls "id")
          World.initial =
        (Outcome.ok (some doc, sampleCollaborators.Accept doc ++ "\n"), w1) ∧
      ToString sampleDecls sampleCollaborators (PrinterStatus.new sampleDecls "id")
          World.initial =
        (Outcome.ok (sampleCollaborators.Accept doc ++ "\n"), w1) ∧
      sampleCollaborators.Accept doc ++ "\n" ≠ "" ∧
      (GetStateName sampleDecls (PrinterStatus.new sampleDecls "id")._state World.initial).1 =
        Outcome.ok (some sn) ∧
      doc.get "State" = some (Value.string sn) ∧
      (GetSubStateName sampleDecls (PrinterStatus.new sampleDecls "id")._UISubState
        World.initial).1 = Outcome.ok (some un) ∧
      doc.get "UISubState" = some (Value.string un) ∧
      w1.errorLog = World.initial.errorLog :=
  ⟨sampleDecls_wellFormed, sampleDecls_statesAboveUndefined,
    World.initial_consistent sampleDecls, sampleCollaborators_answers_new,
    Or.inr ⟨"id", rfl⟩,
    ToString_valid_pair sampleDecls sampleDecls_wellFormed sampleDecls_statesAboveUndefined
      sampleCollaborators (PrinterStatus.new sampleDecls "id") World.initial
      (World.initial_consistent sampleDecls) _ _ _ sampleCollaborators_answers_new
      (Or.inr ⟨"id", rfl⟩)⟩

/-- C13. `ToString` is a `const` member function: the snapshot is an input
that it cannot modify, and it leaves the stored last error message as it
was. When the collaborator calls return, a second call right after the
first returns the same document and text, and so does every call on the
same snapshot in a world with the same stored message, with collaborators
that give the same job name, the same translator results and the same
writer output for that document. -/
theorem ToString_idempotent (D : Decls) (hD : D.WellFormed) (env : Collaborators)
    (ps : PrinterStatus) (w : World) (hw : w.Consistent D)
    (jobName sparkState sparkJobState : String)
    (hR : env.Answers D ps jobName sparkState sparkJobState) :
    ∃ doc text w1 w2,
      ToStringDocument D env ps w = (Outcome.ok (some doc, text), w1) ∧
      ToString D env ps w = (Outcome.ok text, w1) ∧
      ToStringDocument D env ps w1 = (Outcome.ok (some doc, text), w2) ∧
      ToString D env ps w1 = (Outcome.ok text, w2) ∧
      w1._lastErrorMessage = w._lastErrorMessage ∧
      w2._lastErrorMessage = w._lastErrorMessage ∧
      ∀ (env1 : Collaborators) (v : World), v.Consistent D →
        v._lastErrorMessage = w._lastErrorMessage →
        env1.GetString D.JOB_NAME_SETTING = env.GetString D.JOB_NAME_SETTING →
        env1.GetSparkStatus ps._state ps._UISubState ps._canLoadPrintData =
          env.GetSparkStatus ps._state ps._UISubState ps._canLoadPrintData →
        env1.GetSparkJobStatus ps._state ps._UISubState (decide (ps._numLayers > 0)) =
          env.GetSparkJobStatus ps._state ps._UISubState (decide (ps._numLayers > 0)) →
        env1.Accept doc = env.Accept doc →
        ∃ v1, ToStringDocument D env1 ps v = (Outcome.ok (some doc, text), v1) ∧
          ToString D env1 ps v = (Outcome.ok text, v1) ∧
          v1._lastErrorMessage = v._lastErrorMessage := by
  have hw1 := afterRender_consistent D ps w hw
  have hm1 := afterRender_lastErrorMessage D ps w
  refine ⟨_, _, afterRender D ps w, afterRender D ps (afterRender D ps w),
    ToStringDocument_eq D hD env ps w hw _ _ _ hR, ToString_eq D hD env ps w hw _ _ _ hR,
    ?_, ?_, hm1, ?_, ?_⟩
  · rw [ToStringDocument_eq D hD env ps _ hw1 _ _ _ hR, hm1]
  · rw [ToString_eq D hD env ps _ hw1 _ _ _ hR, hm1]
  · rw [afterRender_lastErrorMessage, hm1]
  · intro env1 v hv hmsg h1 h2 h3 h4
    have hR1 : env1.Answers D ps jobName sparkState sparkJobState :=
      ⟨h1.trans hR.jobName, h2.trans hR.sparkState, h3.trans hR.sparkJobState⟩
    refine ⟨afterRender D ps v, ?_, ?_, afterRender_lastErrorMessage D ps v⟩
    · rw [ToStringDocument_eq D hD env1 ps v hv _ _ _ hR1, hmsg, h4]
    · rw [ToString_eq D hD env1 ps v hv _ _ _ hR1, hmsg, h4]

/-- Witness of C13: the snapshot of layer 5 of 20 rendered twice, starting
in the initial world of the sample header. -/
theorem ToString_idempotent_witness :
    sampleDecls.WellFormed ∧ World.initial.Consistent sampleDecls ∧
    sampleCollaborators.Answers sampleDecls samplePrintingStatus "part.tar.gz" "ready"
      "printing" ∧
    ∃ doc text w1 w2,
      ToStringDocument sampleDecls sampleCollaborators samplePrintingStatus World.initial =
        (Outcome.ok (some doc, text), w1) ∧
      ToString sampleDecls sampleCollaborators samplePrintingStatus World.initial =
        (Outcome.ok text, w1) ∧
      ToStringDocument sampleDecls sampleCollaborators samplePrintingStatus w1 =
        (Outcome.ok (some doc, text), w2) ∧
      ToString sampleDecls sampleCollaborators samplePrintingStatus w1 =
        (Outcome.ok text, w2) ∧
      w1._lastErrorMessage = World.initial._lastErrorMessage ∧
      w2._lastErrorMessage = World.initial._lastErrorMessage ∧
      ∀ (env1 : Collaborators) (v : World), v.Consistent sampleDecls →
        v._lastErrorMessage = World.initial._lastErrorMessage →
        env1.GetString sampleDecls.JOB_NAME_SETTING =
          sampleCollaborators.GetString sampleDecls.JOB_NAME_SETTING →
        env1.GetSparkStatus samplePrintingStatus._state samplePrintingStatus._UISubState
            samplePrintingStatus._canLoadPrintData =
          sampleCollaborators.GetSparkStatus samplePrintingStatus._state
            samplePrintingStatus._UISubState samplePrintingStatus._canLoadPrintData →
        env1.GetSparkJobStatus samplePrintingStatus._state samplePrintingStatus._UISubState
            (decide (samplePrintingStatus._numLayers > 0)) =
          sampleCollaborators.GetSparkJobStatus samplePrintingStatus._state
            samplePrintingStatus._UISubState (decide (samplePrintingStatus._numLayers > 0)) →
        env1.Accept doc = sampleCollaborators.Accept doc →
        ∃ v1, ToStringDocument sampleDecls env1 samplePrintingStatus v =
            (Outcome.ok (some doc, text), v1) ∧
          ToString sampleDecls env1 samplePrintingStatus v = (Outcome.ok text, v1) ∧
          v1._lastErrorMessage = v._lastErrorMessage :=
  ⟨sampleDecls_wellFormed, World.initial_consistent sampleDecls,
    sampleCollaborators_answers_printing,
    ToString_idempotent sampleDecls sampleDecls_wellFormed sampleCollaborators
      samplePrintingStatus World.initial (World.initial_consistent sampleDecls)
      _ _ _ sampleCollaborators_answers_printing⟩

/-! ## The error channel -/

/-- C14. The error channel holds one value, the last one written: the
stored message is empty at program start; a read after `SetLastErrorMsg(m)`
returns `m`; after `SetLastErrorMsg(m1)` and then `SetLastErrorMsg(m2)` it
returns `m2`; reading leaves the stored message as it was, and writing
returns without touching the log or the name tables. -/
theorem ErrorChannel_last_writer_wins :
    World.initial._lastErrorMessage = "" ∧
    (GetLastErrorMessage World.initial).1 = Outcome.ok "" ∧
    (∀ (m : String) (w : World),
      (SetLastErrorMsg m w).1 = Outcome.ok () ∧
      (GetLastErrorMessage (SetLastErrorMsg m w).2).1 = Outcome.ok m) ∧
    (∀ (m1 m2 : String) (w : World),
      (GetLastErrorMessage (SetLastErrorMsg m2 (SetLastErrorMsg m1 w).2).2).1 =
        Outcome.ok m2) ∧
    (∀ w : World, (GetLastErrorMessage w).1 = Outcome.ok w._lastErrorMessage ∧
      (GetLastErrorMessage w).2._lastErrorMessage = w._lastErrorMessage ∧
      (GetLastErrorMessage (GetLastErrorMessage w).2).1 = (GetLastErrorMessage w).1) ∧
    (∀ (m : String) (w : World),
      (SetLastErrorMsg m w).2.errorLog = w.errorLog ∧
      (SetLastErrorMsg m w).2.stateNames = w.stateNames ∧
      (SetLastErrorMsg m w).2.substateNames = w.substateNames) := by
  refine ⟨rfl, rfl, ?_, ?_, ?_, ?_⟩
  · intro m w
    exact ⟨rfl, rfl⟩
  · intro m1 m2 w
    rfl
  · intro w
    exact ⟨rfl, rfl, rfl⟩
  · intro m w
    exact ⟨rfl, rfl, rfl⟩

/-! ## Fields of the rendered document -/

/-- C15. When the collaborator calls return, the `Change` value of the
rendered document is `"entering"` when the change tag is `Entering`,
`"leaving"` when it is `Leaving`, and `"none"` for `NoChange` and for every
other tag value; it is one of these three texts for every snapshot, and
`"none"` for the snapshot the constructor builds. -/
theorem ToString_change_field (D : Decls) (hD : D.WellFormed) (hC : D.ChangeTagsDistinct)
    (env : Collaborators) (ps : PrinterStatus) (w : World) (hw : w.Consistent D)
    (jobName sparkState sparkJobState : String)
    (hR : env.Answers D ps jobName sparkState sparkJobState) :
    ∃ doc w1 change,
      ToStringDocument D env ps w = (Outcome.ok (some doc, env.Accept doc ++ "\n"), w1) ∧
      ToString D env ps w = (Outcome.ok (env.Accept doc ++ "\n"), w1) ∧
      doc.get "Change" = some (Value.string change) ∧
      (ps._change = D.Entering → change = "entering") ∧
      (ps._change = D.Leaving → change = "leaving") ∧
      (ps._change = D.NoChange → change = "none") ∧
      (ps._change ≠ D.Entering → ps._change ≠ D.Leaving → change = "none") ∧
      (change = "entering" ∨ change = "leaving" ∨ change = "none") ∧
      (∀ uuid, ps = PrinterStatus.new D uuid → change = "none") := by
  obtain ⟨hEL, hNE, hNL⟩ := hC
  refine ⟨_, _,
    (if ps._change = D.Entering then ENTERING
      else if ps._change = D.Leaving then LEAVING else NO_CHANGE),
    ToStringDocument_eq D hD env ps w hw _ _ _ hR, ToString_eq D hD env ps w hw _ _ _ hR,
    ?_, ?_, ?_, ?_, ?_, ?_, ?_⟩
  · show some (if ps._change = D.Entering then Value.string ENTERING
      else if ps._change = D.Leaving then Value.string LEAVING
      else Value.string NO_CHANGE) = _
    split_ifs <;> rfl
  · intro h
    rw [if_pos h]
    rfl
  · intro h
    have h1 : ps._change ≠ D.Entering := by
      rw [h]
      exact fun e => hEL e.symm
    rw [if_neg h1, if_pos h]
    rfl
  · intro h
    have h1 : ps._change ≠ D.Entering := by
      rw [h]
      exact hNE
    have h2 : ps._change ≠ D.Leaving := by
      rw [h]
      exact hNL
    rw [if_neg h1, if_neg h2]
    rfl
  · intro h1 h2
    rw [if_neg h1, if_neg h2]
    rfl
  · split_ifs
    · exact Or.inl rfl
    · exact Or.inr (Or.inl rfl)
    · exact Or.inr (Or.inr rfl)
  · intro uuid hps
    have h : ps._change = D.NoChange := by
      rw [hps]
      rfl
    have h1 : ps._change ≠ D.Entering := by
      rw [h]
      exact hNE
    have h2 : ps._change ≠ D.Leaving := by
      rw [h]
      exact hNL
    rw [if_neg h1, if_neg h2]
    rfl

/-- Witness of C15: the snapshot the constructor builds renders
`Change = "none"` in the initial world of the sample header. -/
theorem ToString_change_field_witness :
    sampleDecls.WellFormed ∧ sampleDecls.ChangeTagsDistinct ∧
    World.initial.Consistent sampleDecls ∧
    sampleCollaborators.Answers sampleDecls (PrinterStatus.new sampleDecls "id")
      "part.tar.gz" "ready" "received" ∧
    ∃ doc w1 change,
      ToStringDocument sampleDecls sampleCollaborators (PrinterStatus.new sampleDecls "id")
          World.initial =
        (Outcome.ok (some doc, sampleCollaborators.Accept doc ++ "\n"), w1) ∧
      ToString sampleDecls sampleCollaborators (PrinterStatus.new sampleDecls "id")
          World.initial =
        (Outcome.ok (sampleCollaborators.Accept doc ++ "\n"), w1) ∧
      doc.get "Change" = some (Value.string change) ∧
      ((PrinterStatus.new sampleDecls "id")._change = sampleDecls.Entering →
        change = "entering") ∧
      ((PrinterStatus.new sampleDecls "id")._change = sampleDecls.Leaving →
        change = "leaving") ∧
      ((PrinterStatus.new sampleDecls "id")._change = sampleDecls.NoChange →
        change = "none") ∧
      ((PrinterStatus.new sampleDecls "id")._change ≠ sampleDecls.Entering →
        (PrinterStatus.new sampleDecls "id")._change ≠ sampleDecls.Leaving →
        change = "none") ∧
      (change = "entering" ∨ change = "leaving" ∨ change = "none") ∧
      (∀ uuid, PrinterStatus.new sampleDecls "id" = PrinterStatus.new sampleDecls uuid →
        change = "none") :=
  ⟨sampleDecls_wellFormed, sampleDecls_changeTagsDistinct,
    World.initial_consistent sampleDecls, sampleCollaborators_answers_new,
    ToString_change_field sampleDecls sampleDecls_wellFormed sampleDecls_changeTagsDistinct
      sampleCollaborators (PrinterStatus.new sampleDecls "id") World.initial
      (World.initial_consistent sampleDecls) _ _ _ sampleCollaborators_answers_new⟩

/-- C17, the code at a concrete render: a snapshot in `ErrorState` rendered
after `SetLastErrorMsg("Motor timeout")`. Each `GetLastErrorMessage` call
counts as one read of the error channel; the render starts with no read
made and ends with two, the calls of lines 217 and 218, not one. -/
theorem ToString_reads_error_channel_twice :
    (∀ w : World, (GetLastErrorMessage w).2.lastErrorReads = w.lastErrorReads + 1) ∧
    (SetLastErrorMsg "Motor timeout" World.initial).2.lastErrorReads = 0 ∧
    ∃ text w1,
      ToString sampleDecls sampleCollaborators sampleErrorStatus
        (SetLastErrorMsg "Motor timeout" World.initial).2 = (Outcome.ok text, w1) ∧
      w1.lastErrorReads = 2 ∧ w1.lastErrorReads ≠ 1 := by
  refine ⟨fun _ => rfl, rfl, _, _,
    ToString_eq sampleDecls sampleDecls_wellFormed sampleCollaborators sampleErrorStatus _
      (SetLastErrorMsg_consistent sampleDecls _ _ (World.initial_consistent sampleDecls))
      _ _ _ sampleCollaborators_answers_error,
    ?_, ?_⟩
  · rw [afterRender_lastErrorReads]
    rfl
  · rw [afterRender_lastErrorReads]
    decide

theorem sampleCollaborators_answers_out_of_range :
    sampleCollaborators.Answers sampleDecls
      { samplePrintingStatus with _state := 255, _UISubState := -1 }
      "part.tar.gz" "ready" "printing" :=
  ⟨rfl, rfl, rfl⟩

/-- C18. A failed name lookup stays inside `ToString`: for every snapshot
the render, when the collaborator calls return, returns a non-empty text
for a document with all nineteen keys; an out-of-range state id gives
`State` the empty string and an out-of-range substate id gives `UISubState`
the empty string; the log grows by exactly one `UnknownPrintEngineState`
report when the state id is out of range, followed by exactly one
`UnknownPrintEngineSubState` report when the substate id is out of range,
and by nothing else, so no `PrinterStatusToString` error is added. -/
theorem ToString_lookup_failure_contained (D : Decls) (hD : D.WellFormed)
    (hE : D.ErrorCodesDistinct) (env : Collaborators) (ps : PrinterStatus) (w : World)
    (hw : w.Consistent D) (jobName sparkState sparkJobState : String)
    (hR : env.Answers D ps jobName sparkState sparkJobState) :
    ∃ doc w1,
      ToStringDocument D env ps w = (Outcome.ok (some doc, env.Accept doc ++ "\n"), w1) ∧
      ToString D env ps w = (Outcome.ok (env.Accept doc ++ "\n"), w1) ∧
      env.Accept doc ++ "\n" ≠ "" ∧
      doc.keys =
        ["State", "UISubState", "Change", "IsError", "ErrorCode", "Errno", "ErrorMessage",
          "JobName", "JobID", "Layer", "TotalLayers", "SecondsLeft", "Temperature",
          "PrintRating", "SparkState", "SparkJobState", "LocalJobID", "CanLoad",
          "CanUpgradeProjector"] ∧
      (ps._state ≤ D.UndefinedPrintEngineState ∨ ps._state ≥ D.MaxPrintEngineState →
        doc.get "State" = some (Value.string "")) ∧
      (ps._UISubState < D.NoUISubState ∨ ps._UISubState ≥ D.MaxUISubState →
        doc.get "UISubState" = some (Value.string "")) ∧
      w1.errorLog = w.errorLog ++
        ((if ps._state ≤ D.UndefinedPrintEngineState ∨ ps._state ≥ D.MaxPrintEngineState then
            [LogEntry.report D.UnknownPrintEngineState false none ps._state] else []) ++
          (if ps._UISubState < D.NoUISubState ∨ ps._UISubState ≥ D.MaxUISubState then
            [LogEntry.report D.UnknownPrintEngineSubState false none ps._UISubState]
            else [])) ∧
      serializationErrors D w1.errorLog = serializationErrors D w.errorLog := by
  refine ⟨_, _, ToStringDocument_eq D hD env ps w hw _ _ _ hR,
    ToString_eq D hD env ps w hw _ _ _ hR,
    append_newline_ne_empty _, filledDocument_keys D ps _ _ _ _ _ _, ?_, ?_,
    afterRender_errorLog D ps w, ?_⟩
  · intro h
    show some (Value.string (stateNameOf D ps._state)) = _
    rw [stateNameOf, if_pos h]
  · intro h
    show some (Value.string (substateNameOf D ps._UISubState)) = _
    rw [substateNameOf, if_pos h]
  · rw [afterRender_errorLog]
    simp only [lookupReports]
    split <;> split <;>
      simp [serializationErrors, List.countP_append, List.countP_cons, LogEntry.code,
        hE.1, hE.2]

/-- Witness of C18: a snapshot with state id 255 and substate id -1
rendered in the initial world of the sample header. -/
theorem ToString_lookup_failure_contained_witness :
    sampleDecls.WellFormed ∧ sampleDecls.ErrorCodesDistinct ∧
    World.initial.Consistent sampleDecls ∧
    sampleCollaborators.Answers sampleDecls
      { samplePrintingStatus with _state := 255, _UISubState := -1 }
      "part.tar.gz" "ready" "printing" ∧
    ∃ doc w1,
      ToStringDocument sampleDecls sampleCollaborators
          { samplePrintingStatus with _state := 255, _UISubState := -1 } World.initial =
        (Outcome.ok (some doc, sampleCollaborators.Accept doc ++ "\n"), w1) ∧
      ToString sampleDecls sampleCollaborators
          { samplePrintingStatus with _state := 255, _UISubState := -1 } World.initial =
        (Outcome.ok (sampleCollaborators.Accept doc ++ "\n"), w1) ∧
      sampleCollaborators.Accept doc ++ "\n" ≠ "" ∧
      doc.keys =
        ["State", "UISubState", "Change", "IsError", "ErrorCode", "Errno", "ErrorMessage",
          "JobName", "JobID", "Layer", "TotalLayers", "SecondsLeft", "Temperature",
          "PrintRating", "SparkState", "SparkJobState", "LocalJobID", "CanLoad",
          "CanUpgradeProjector"] ∧
      ((255 : Int) ≤ sampleDecls.UndefinedPrintEngineState ∨
          (255 : Int) ≥ sampleDecls.MaxPrintEngineState →
        doc.get "State" = some (Value.string "")) ∧
      ((-1 : Int) < sampleDecls.NoUISubState ∨ (-1 : Int) ≥ sampleDecls.MaxUISubState →
        doc.get "UISubState" = some (Value.string "")) ∧
      w1.errorLog = World.initial.errorLog ++
        ((if (255 : Int) ≤ sampleDecls.UndefinedPrintEngineState ∨
              (255 : Int) ≥ sampleDecls.MaxPrintEngineState then
            [LogEntry.report sampleDecls.UnknownPrintEngineState false none 255] else []) ++
          (if (-1 : Int) < sampleDecls.NoUISubState ∨
              (-1 : Int) ≥ sampleDecls.MaxUISubState then
            [LogEntry.report sampleDecls.UnknownPrintEngineSubState false none (-1)]
            else [])) ∧
      serializationErrors sampleDecls w1.errorLog =
        serializationErrors sampleDecls World.initial.errorLog :=
  ⟨sampleDecls_wellFormed, sampleDecls_errorCodesDistinct,
    World.initial_consistent sampleDecls, sampleCollaborators_answers_out_of_range,
    ToString_lookup_failure_contained sampleDecls sampleDecls_wellFormed
      sampleDecls_errorCodesDistinct sampleCollaborators
      { samplePrintingStatus with _state := 255, _UISubState := -1 } World.initial
      (World.initial_consistent sampleDecls) _ _ _
      sampleCollaborators_answers_out_of_range⟩

/-! ## The constructor -/

/-- C19. The snapshot the constructor builds has state `PrinterOnState`,
substate `NoUISubState`, change tag `NoChange`, `_isError = false`, error
code `Success`, native error code 0, no layers, current layer 0, rating
`Unknown` and both capability flags false; it satisfies the invariants of
the data model: its state lies strictly between `Undefined` and `Max`, its
substate in `[NoUISubState, MaxUISubState)`, and the layer bound holds. -/
theorem PrinterStatus_new_invariants (D : Decls) (hD : D.WellFormed)
    (hA : D.StatesAboveUndefined) (uuid : String) :
    (PrinterStatus.new D uuid)._state = D.PrinterOnState ∧
    (PrinterStatus.new D uuid)._UISubState = D.NoUISubState ∧
    (PrinterStatus.new D uuid)._change = D.NoChange ∧
    (PrinterStatus.new D uuid)._isError = false ∧
    (PrinterStatus.new D uuid)._errorCode = D.Success ∧
    (PrinterStatus.new D uuid)._errno = 0 ∧
    (PrinterStatus.new D uuid)._numLayers = 0 ∧
    (PrinterStatus.new D uuid)._currentLayer = 0 ∧
    (PrinterStatus.new D uuid)._printRating = D.Unknown ∧
    (PrinterStatus.new D uuid)._canLoadPrintData = false ∧
    (PrinterStatus.new D uuid)._canUpgradeProjector = false ∧
    (D.UndefinedPrintEngineState < (PrinterStatus.new D uuid)._state ∧
      (PrinterStatus.new D uuid)._state < D.MaxPrintEngineState) ∧
    (D.NoUISubState ≤ (PrinterStatus.new D uuid)._UISubState ∧
      (PrinterStatus.new D uuid)._UISubState < D.MaxUISubState) ∧
    ((PrinterStatus.new D uuid)._numLayers > 0 →
      0 ≤ (PrinterStatus.new D uuid)._currentLayer ∧
      (PrinterStatus.new D uuid)._currentLayer ≤ (PrinterStatus.new D uuid)._numLayers) := by
  have hv := PrinterStatus.new_valid D hD hA uuid
  refine ⟨rfl, rfl, rfl, rfl, rfl, rfl, rfl, rfl, rfl, rfl, rfl, hv.1, hv.2, ?_⟩
  intro h
  have h0 : (0 : Int) > 0 := h
  omega

/-- Witness of C19: the constructor under the sample header, where
`PrinterOnState = 1` lies between `Undefined = 0` and `Max = 33`. -/
theorem PrinterStatus_new_invariants_witness :
    sampleDecls.WellFormed ∧ sampleDecls.StatesAboveUndefined ∧
    (PrinterStatus.new sampleDecls "id")._state = 1 ∧
    (PrinterStatus.new sampleDecls "id")._UISubState = 0 ∧
    (PrinterStatus.new sampleDecls "id")._change = 0 ∧
    (PrinterStatus.new sampleDecls "id")._isError = false ∧
    (PrinterStatus.new sampleDecls "id")._errorCode = 0 ∧
    (PrinterStatus.new sampleDecls "id")._errno = 0 ∧
    (PrinterStatus.new sampleDecls "id")._numLayers = 0 ∧
    (PrinterStatus.new sampleDecls "id")._currentLayer = 0 ∧
    (PrinterStatus.new sampleDecls "id")._printRating = 0 ∧
    (PrinterStatus.new sampleDecls "id")._canLoadPrintData = false ∧
    (PrinterStatus.new sampleDecls "id")._canUpgradeProjector = false ∧
    ((0 : Int) < (PrinterStatus.new sampleDecls "id")._state ∧
      (PrinterStatus.new sampleDecls "id")._state < 33) ∧
    ((0 : Int) ≤ (PrinterStatus.new sampleDecls "id")._UISubState ∧
      (PrinterStatus.new sampleDecls "id")._UISubState < 19) ∧
    ((PrinterStatus.new sampleDecls "id")._numLayers > 0 →
      0 ≤ (PrinterStatus.new sampleDecls "id")._currentLayer ∧
      (PrinterStatus.new sampleDecls "id")._currentLayer ≤
        (PrinterStatus.new sampleDecls "id")._numLayers) :=
  ⟨sampleDecls_wellFormed, sampleDecls_statesAboveUndefined,
    PrinterStatus_new_invariants sampleDecls sampleDecls_wellFormed
      sampleDecls_statesAboveUndefined "id"⟩

end Ember
